import Mathlib

/-!
Verification development for the BASTION risk-management core.

Shallow embedding of the Python sources in `src/core/risk_engine.py`,
`src/core/engine.py`, `src/core/guarding_line.py` and
`src/api/session_routes.py`. Python floats are modelled as rationals (ℚ),
Python lists as `List`, dicts with fixed keys as structures, and the two
trade-direction strings as the inductive type `Dir` (every branch in the
sources tests `direction == "long"` with an `else` for short, so the
two-constructor type is faithful on the inputs the claims quantify over).
In-place mutation of a `RiskLevels` object is modelled by returning the
updated record, and the per-session momentum-state dict entry is threaded as
an explicit `Option MomentumState` value.
-/

namespace Bastion

/-- Trade direction: the sources use the strings "long" / "short". -/
inductive Dir
  | long
  | short
deriving DecidableEq, Repr

/-- Divergence type strings "bearish" / "bullish" from `_detect_divergence`. -/
inductive DivType
  | bearish
  | bullish
deriving DecidableEq, Repr

/-- `StructureHealth` enum of risk_engine.py. -/
inductive StructureHealth
  | strong
  | weakening
  | broken
deriving DecidableEq, Repr

/-- `VolatilityRegime` enum of risk_engine.py. -/
inductive VolRegime
  | low
  | normal
  | high
  | extreme
deriving DecidableEq, Repr

/-- Identity of the code site that assigned `result.exit_reason` in
`RiskEngine.update_position` (the source stores a formatted message string;
the constructor records which assignment produced it, and for a target hit the
target's own `reason` text that the message embeds). -/
inductive ExitCause
  | momentumTrail
  | divergence (t : DivType)
  | targetHit (reason : String)
  | guardingBroken
  | structureBroken
deriving DecidableEq, Repr

/-- One OHLCV candle; fields are the dict keys open/high/low/close
(`o`, `hi`, `lo`, `cl` because `open` is a Lean keyword). -/
structure Candle where
  o : ℚ
  hi : ℚ
  lo : ℚ
  cl : ℚ
deriving DecidableEq, Repr

/-- Python `l[-n:]` for a positive count n (every call site below passes a
positive one; Python's `l[-0:]` would instead be the whole list). -/
def takeLast (n : ℕ) (l : List α) : List α := l.drop (l.length - n)

/-- `min(l)` for a nonempty Python list (0 on empty, never used on empty). -/
def listMin : List ℚ → ℚ
  | [] => 0
  | x :: xs => xs.foldl min x

/-- `max(l)` for a nonempty Python list (0 on empty, never used on empty). -/
def listMax : List ℚ → ℚ
  | [] => 0
  | x :: xs => xs.foldl max x

/-- `np.mean` (0 on empty; all uses are on nonempty lists). -/
def meanQ (l : List ℚ) : ℚ := if l.length = 0 then 0 else l.sum / l.length

/-- `np.arange(n)` as rationals. -/
def rangeQ (n : ℕ) : List ℚ := (List.range n).map (fun i => (i : ℚ))

/-- `np.polyfit(x, y, 1)`: least-squares slope and intercept. The x-values in
every call site are pairwise distinct, so the denominator is nonzero there
(ℚ division by zero yields 0, which no call site reaches). -/
def polyfit1 (xs ys : List ℚ) : ℚ × ℚ :=
  let n : ℚ := xs.length
  let sx := xs.sum
  let sy := ys.sum
  let sxx := (xs.map (fun x => x * x)).sum
  let sxy := (List.zipWith (· * ·) xs ys).sum
  let d := n * sxx - sx * sx
  let slope := (n * sxy - sx * sy) / d
  (slope, (sy - slope * sx) / n)

/-- `_find_swing_points` (identical fractal loop in GuardingLineManager and
GuardingLine; the manager's extra `len < 5` early return equals the loop
being empty, since `range(2, len - 2)` is empty for `len < 5`). -/
def find_swing_points (prices : List ℚ) (direction : Dir) : List (ℕ × ℚ) :=
  (List.range prices.length).filterMap fun i =>
    if 2 ≤ i ∧ i + 2 < prices.length then
      let p := prices.getD i 0
      match direction with
      | .long =>
          if p < prices.getD (i-1) 0 ∧ p < prices.getD (i-2) 0 ∧
             p < prices.getD (i+1) 0 ∧ p < prices.getD (i+2) 0 then
            some (i, p)
          else none
      | .short =>
          if p > prices.getD (i-1) 0 ∧ p > prices.getD (i-2) 0 ∧
             p > prices.getD (i+1) 0 ∧ p > prices.getD (i+2) 0 then
            some (i, p)
          else none
    else none

/-- Guarding-line parameter dict: keys slope / intercept / activation_bar /
buffer_pct (the metadata keys slope_source and base_level are presentation
only and not modelled). -/
structure GuardParams where
  slope : ℚ
  intercept : ℚ
  activation_bar : ℕ
  buffer_pct : ℚ
deriving DecidableEq, Repr

namespace GuardingLineManager

/-- Instance attributes of `GuardingLineManager` in risk_engine.py. Its
`min_slope_pct = 0.05` and `max_slope_pct = 0.5` are set unconditionally in
`__init__`, so they appear as literals in the functions below. -/
structure Cfg where
  activation_bars : ℕ
  buffer_pct : ℚ
deriving DecidableEq, Repr

/-- `GuardingLineManager._calculate_dynamic_slope`. -/
def calculate_dynamic_slope (swing_points : List (ℕ × ℚ)) (entry_price : ℚ) : ℚ :=
  if swing_points.length < 2 then entry_price * (0.05 / 100)
  else (polyfit1 (swing_points.map (fun p => (p.1 : ℚ))) (swing_points.map Prod.snd)).1

/-- `GuardingLineManager.calculate_initial_line` (risk_engine.py): dynamic
slope from swing regression or a raw linear fit, then clamped to the trade
direction, to a minimum of 0.05 percent and a maximum of 0.5 percent of the
entry price per bar. -/
def calculate_initial_line (g : Cfg) (entry_price : ℚ) (direction : Dir)
    (price_data : List ℚ) (lookback : ℕ) : GuardParams :=
  if price_data.length < 5 then
    let default_slope := entry_price * (0.05 / 100)
    { slope := if direction = .long then default_slope else -default_slope,
      intercept := entry_price * (if direction = .long then 0.97 else 1.03),
      activation_bar := g.activation_bars,
      buffer_pct := g.buffer_pct }
  else
    let recent := price_data.take (min lookback price_data.length)
    let swing_points := find_swing_points recent direction
    let rawSlope :=
      if 2 ≤ swing_points.length then calculate_dynamic_slope swing_points entry_price
      else (polyfit1 (rangeQ recent.length) recent).1
    let slope :=
      match direction with
      | .long =>
          let s := max 0 rawSlope
          let min_slope := entry_price * (0.05 / 100)
          max s min_slope
      | .short =>
          let s := min 0 rawSlope
          let min_slope := -(entry_price * (0.05 / 100))
          min s min_slope
    let max_slope := entry_price * (0.5 / 100)
    let slope := max (-max_slope) (min max_slope slope)
    let base_intercept :=
      match direction with
      | .long => if recent.length ≠ 0 then listMin recent else entry_price * 0.97
      | .short => if recent.length ≠ 0 then listMax recent else entry_price * 1.03
    let intercept :=
      match direction with
      | .long => base_intercept * (1 - g.buffer_pct / 100)
      | .short => base_intercept * (1 + g.buffer_pct / 100)
    { slope := slope, intercept := intercept,
      activation_bar := g.activation_bars, buffer_pct := g.buffer_pct }

end GuardingLineManager

/-- `get_current_level`, textually identical in
`GuardingLineManager.get_current_level` (risk_engine.py) and
`GuardingLine.get_current_level` (guarding_line.py); the
`line_params.get("activation_bar", self.activation_bars)` default never fires
because both `calculate_initial_line` variants always store the key. -/
def get_current_level (line_params : GuardParams) (bars_since_entry : ℕ) : ℚ :=
  if bars_since_entry < line_params.activation_bar then
    if 0 ≤ line_params.slope then line_params.intercept * 0.9
    else line_params.intercept * 1.1
  else
    line_params.intercept +
      line_params.slope * ((bars_since_entry - line_params.activation_bar : ℕ) : ℚ)

/-- `check_break`, identical in `GuardingLineManager.check_break`
(risk_engine.py) and `GuardingLine.check_break` (guarding_line.py, whose
`require_close` argument is unused); the message string of the `(bool, str)`
pair is presentation only and not modelled. -/
def check_break (current_price guarding_level : ℚ) (direction : Dir) : Bool :=
  match direction with
  | .long => current_price < guarding_level
  | .short => current_price > guarding_level

namespace GuardingLine

/-- Instance attributes of `GuardingLine` in guarding_line.py; its
`min_slope_pct` and `tightening_factor` attributes are never read by
`calculate_initial_line`, so they are not modelled. -/
structure Cfg where
  activation_bars : ℕ
  buffer_pct : ℚ
deriving DecidableEq, Repr

/-- `GuardingLine.calculate_initial_line` (guarding_line.py): regression
slope AND intercept, slope clamped only to the trade direction (no minimum,
no maximum), buffer applied multiplicatively to the regression intercept. -/
def calculate_initial_line (g : Cfg) (entry_price : ℚ) (direction : Dir)
    (price_data : List ℚ) (lookback : ℕ) : GuardParams :=
  if price_data.length < 5 then
    { slope := 0,
      intercept := entry_price * (if direction = .long then 0.97 else 1.03),
      activation_bar := g.activation_bars,
      buffer_pct := g.buffer_pct }
  else
    let recent := price_data.take (min lookback price_data.length)
    let swing_points := find_swing_points recent direction
    let fit :=
      if swing_points.length < 2 then polyfit1 (rangeQ recent.length) recent
      else polyfit1 (swing_points.map (fun p => (p.1 : ℚ))) (swing_points.map Prod.snd)
    match direction with
    | .long =>
        { slope := max 0 fit.1,
          intercept := fit.2 * (1 - g.buffer_pct / 100),
          activation_bar := g.activation_bars,
          buffer_pct := g.buffer_pct }
    | .short =>
        { slope := min 0 fit.1,
          intercept := fit.2 * (1 + g.buffer_pct / 100),
          activation_bar := g.activation_bars,
          buffer_pct := g.buffer_pct }

end GuardingLine

/-- `MomentumState` dataclass (risk_engine.py). -/
structure MomentumState where
  active : Bool := false
  trailing_level : ℚ := 0
  slope : ℚ := 0
  slope_strength : ℚ := 0
  bars_in_momentum : ℕ := 0
  peak_price : ℚ := 0
  trail_buffer_pct : ℚ := 0
  last_candle_body_high : ℚ := 0
  last_candle_body_low : ℚ := 0
  activation_r : ℚ := 0
deriving DecidableEq, Repr

/-- `MomentumState()` with all dataclass defaults. -/
def MomentumState.init : MomentumState := {}

namespace MomentumTrailingTP

/-- Constructor parameters of `MomentumTrailingTP` (risk_engine.py). -/
structure Cfg where
  min_r_to_activate : ℚ := 1
  min_slope_to_activate : ℚ := 0.002
  base_buffer_pct : ℚ := 0.5
  min_buffer_pct : ℚ := 0.15
  max_buffer_pct : ℚ := 1.5
  slope_lookback : ℕ := 5
  trail_wicks : Bool := false
  body_buffer_pct : ℚ := 0.1
deriving DecidableEq, Repr

/-- The `MomentumTrailingTP(...)` instance built in `RiskEngine.__init__`
(risk_engine.py): same values as the constructor defaults. -/
def engineMomCfg : Cfg := {}

/-- `MomentumTrailingTP.calculate_slope`: regression slope normalized to
percent per bar, and a strength in [0, 1] from slope magnitude times the
R-squared of the fit, penalized by 0.3 when the slope opposes the trade
direction. -/
def calculate_slope (m : Cfg) (closes : List ℚ) (direction : Dir) : ℚ × ℚ :=
  if closes.length < 3 then (0, 0)
  else
    let recent := if closes.length ≥ m.slope_lookback then takeLast m.slope_lookback closes
                  else closes
    if recent.length < 2 then (0, 0)
    else
      let fit := polyfit1 (rangeQ recent.length) recent
      let slope := fit.1
      let avg_price := meanQ recent
      let slope_pct := if 0 < avg_price then slope / avg_price * 100 else 0
      let y_pred := (rangeQ recent.length).map (fun x => slope * x + fit.2)
      let ss_res := (List.zipWith (fun y yp => (y - yp) ^ 2) recent y_pred).sum
      let ss_tot := (recent.map (fun y => (y - meanQ recent) ^ 2)).sum
      let r_squared := if 0 < ss_tot then 1 - ss_res / ss_tot else 0
      let r_squared := max 0 (min 1 r_squared)
      let slope_magnitude := |slope_pct| / 1
      let strength := min 1 (slope_magnitude * r_squared)
      let strength :=
        if (direction = .long ∧ slope < 0) ∨ (direction = .short ∧ slope > 0) then
          strength * 0.3
        else strength
      (slope_pct, strength)

/-- `MomentumTrailingTP.calculate_trail_buffer`. -/
def calculate_trail_buffer (m : Cfg) (slope_strength : ℚ) : ℚ :=
  let buffer_range := m.max_buffer_pct - m.min_buffer_pct
  let buffer := m.max_buffer_pct - slope_strength * buffer_range
  max m.min_buffer_pct (min m.max_buffer_pct buffer)

/-- `MomentumTrailingTP.calculate_trail_level`. -/
def calculate_trail_level (m : Cfg) (current_price : ℚ) (direction : Dir)
    (recent_candles : List Candle) (buffer_pct : ℚ) : ℚ :=
  if recent_candles.length = 0 then
    match direction with
    | .long => current_price * (1 - buffer_pct / 100)
    | .short => current_price * (1 + buffer_pct / 100)
  else
    let lookback := min 3 recent_candles.length
    let recent := takeLast lookback recent_candles
    match direction with
    | .long =>
        let reference_price :=
          if m.trail_wicks then listMin (recent.map (·.lo))
          else listMin (recent.map (fun c => min c.o c.cl))
        let trail_level := reference_price * (1 - m.body_buffer_pct / 100)
        let max_trail := current_price * (1 - m.min_buffer_pct / 100)
        min trail_level max_trail
    | .short =>
        let reference_price :=
          if m.trail_wicks then listMax (recent.map (·.hi))
          else listMax (recent.map (fun c => max c.o c.cl))
        let trail_level := reference_price * (1 + m.body_buffer_pct / 100)
        let min_trail := current_price * (1 + m.min_buffer_pct / 100)
        max trail_level min_trail

/-- `MomentumTrailingTP.update`: returns the updated state and `should_exit`.
The source also returns an exit-reason message string that is `None` exactly
when `should_exit` is false, so the Boolean carries all the information the
caller's `if should_exit and exit_reason` test uses. -/
def update (m : Cfg) (state : MomentumState) (current_price current_r : ℚ)
    (direction : Dir) (recent_closes : List ℚ) (recent_candles : List Candle) :
    MomentumState × Bool :=
  if ¬ state.active then
    if current_r ≥ m.min_r_to_activate then
      let sp := calculate_slope m recent_closes direction
      if |sp.1| ≥ m.min_slope_to_activate ∧ sp.2 ≥ 0.3 then
        let buf := calculate_trail_buffer m sp.2
        ({ state with
            active := true, activation_r := current_r, slope := sp.1,
            slope_strength := sp.2, peak_price := current_price,
            bars_in_momentum := 0, trail_buffer_pct := buf,
            trailing_level :=
              calculate_trail_level m current_price direction recent_candles buf },
          false)
      else (state, false)
    else (state, false)
  else
    let s1 := { state with bars_in_momentum := state.bars_in_momentum + 1 }
    let sp := calculate_slope m recent_closes direction
    let s2 := { s1 with
        slope := sp.1, slope_strength := sp.2,
        trail_buffer_pct := calculate_trail_buffer m sp.2,
        peak_price :=
          match direction with
          | .long => max s1.peak_price current_price
          | .short => min s1.peak_price current_price }
    let new_trail :=
      calculate_trail_level m current_price direction recent_candles s2.trail_buffer_pct
    let s3 := { s2 with
        trailing_level :=
          match direction with
          | .long => if new_trail > s2.trailing_level then new_trail else s2.trailing_level
          | .short => if new_trail < s2.trailing_level then new_trail else s2.trailing_level }
    let s4 :=
      match recent_candles.getLast? with
      | some last =>
          { s3 with
              last_candle_body_high := max last.o last.cl,
              last_candle_body_low := min last.o last.cl }
      | none => s3
    if (direction = .long ∧ current_price < s4.trailing_level) ∨
       (direction = .short ∧ current_price > s4.trailing_level) then
      (s4, true)
    else (s4, false)

end MomentumTrailingTP

namespace RiskEngine

/-- The fields of `RiskEngineConfig` (risk_engine.py) read by the functions
modelled here, with the dataclass defaults. -/
structure Config where
  max_stop_pct : ℚ := 5
  atr_stop_multiplier : ℚ := 2
  enable_multi_tier_stops : Bool := true
  partial_exit_ratios : List ℚ := [0.33, 0.33, 0.34]
  volatility_adjusted_sizing : Bool := true
  guarding_activation_bars : ℕ := 10
  enable_dynamic_targets : Bool := true
  enable_breakeven_stop : Bool := true
  breakeven_trigger_r : ℚ := 1
  breakeven_buffer_pct : ℚ := 0.1
  extreme_vol_size_reduction : ℚ := 0.5
  enable_divergence_detection : Bool := true
  divergence_lookback : ℕ := 20
  rsi_period : ℕ := 14
deriving DecidableEq, Repr

/-- `RiskEngineConfig()` with all defaults. -/
def defaultConfig : Config := {}

/-- One stop dict of `RiskLevels.stops` (risk_engine.py): keys price / type /
reason / confidence / distance_pct. -/
structure StopRec where
  price : ℚ
  type : String
  reason : String
  confidence : ℚ
  distance_pct : ℚ
deriving DecidableEq, Repr

/-- One target dict of `RiskLevels.targets` (risk_engine.py): keys price /
type / reason / exit_percentage / distance_pct / confidence. -/
structure TargetRec where
  price : ℚ
  type : String
  reason : String
  exit_percentage : ℚ
  distance_pct : ℚ
  confidence : ℚ
deriving DecidableEq, Repr

/-- The fields of the `RiskLevels` dataclass (risk_engine.py) that
`update_position` reads or writes. -/
structure RiskLevels where
  stops : List StopRec
  targets : List TargetRec
  entry_price : ℚ
  direction : Dir
  guarding_line : Option GuardParams
  breakeven_price : ℚ
deriving DecidableEq, Repr

/-- `PositionUpdate` dataclass (risk_engine.py). -/
structure PositionUpdate where
  current_price : ℚ
  bars_since_entry : ℕ
  highest_since_entry : ℚ
  lowest_since_entry : ℚ
  unrealized_pnl_pct : ℚ
  recent_lows : Option (List ℚ) := none
  recent_highs : Option (List ℚ) := none
deriving DecidableEq, Repr

/-- `RiskUpdate` dataclass (risk_engine.py). `exit_reason` and the other
message strings of the source are modelled by `ExitCause`; the
`stop_move_reason` string and the `alerts` list are presentation only and not
modelled. -/
structure RiskUpdate where
  updated_stops : List StopRec := []
  updated_targets : List TargetRec := []
  exit_signal : Bool := false
  exit_reason : Option ExitCause := none
  exit_percentage : ℚ := 0
  stop_moved : Bool := false
  new_stop_price : Option ℚ := none
  guarding_active : Bool := false
  guarding_broken : Bool := false
  guarding_level : Option ℚ := none
  structure_health : StructureHealth := .strong
  breakeven_hit : Bool := false
  moved_to_breakeven : Bool := false
  current_r_multiple : ℚ := 0
  new_target_added : Bool := false
  new_target_price : Option ℚ := none
  divergence_detected : Bool := false
  divergence_type : Option DivType := none
  momentum_trailing_active : Bool := false
  momentum_trailing_level : ℚ := 0
  momentum_slope_strength : ℚ := 0
  momentum_buffer_pct : ℚ := 0
deriving DecidableEq, Repr

/-- `RiskEngine._calculate_breakeven_price`. -/
def calculate_breakeven_price (cfg : Config) (entry_price : ℚ) (direction : Dir) : ℚ :=
  let buffer := entry_price * (cfg.breakeven_buffer_pct / 100)
  match direction with
  | .long => entry_price + buffer
  | .short => entry_price - buffer

/-- `RiskEngine._is_better_stop`. -/
def is_better_stop (new_stop current_stop : ℚ) (direction : Dir) : Bool :=
  match direction with
  | .long => new_stop > current_stop
  | .short => new_stop < current_stop

/-- `RiskEngine._detect_divergence` (risk_engine.py): RSI over the last
`rsi_period` deltas of the last `divergence_lookback` closes, compared with
the highs/lows of the two lookback halves. -/
def detect_divergence (cfg : Config) (closes : List ℚ) (direction : Dir) :
    Bool × Option DivType :=
  if ¬ cfg.enable_divergence_detection then (false, none)
  else if closes.length < cfg.divergence_lookback then (false, none)
  else
    let close := takeLast cfg.divergence_lookback closes
    let delta := List.zipWith (fun b a => b - a) (close.drop 1) close
    let gains := delta.map (fun d => if d > 0 then d else 0)
    let losses := delta.map (fun d => if d < 0 then -d else 0)
    let avg_gain := meanQ (takeLast cfg.rsi_period gains)
    let avg_loss := meanQ (takeLast cfg.rsi_period losses)
    let rsi := if avg_loss = 0 then 100 else 100 - 100 / (1 + avg_gain / avg_loss)
    let mid := close.length / 2
    match direction with
    | .long =>
        if listMax (close.drop mid) > listMax (close.take mid) ∧ rsi < 50 then
          (true, some .bearish)
        else (false, none)
    | .short =>
        if listMin (close.drop mid) < listMin (close.take mid) ∧ rsi > 50 then
          (true, some .bullish)
        else (false, none)

/-- `RiskEngine._check_structure_health`. -/
def check_structure_health (direction : Dir) (current : ℚ)
    (recent_lows recent_highs : List ℚ) : StructureHealth :=
  if recent_lows.length < 3 ∨ recent_highs.length < 3 then .strong
  else
    match direction with
    | .long =>
        if recent_lows.getD 0 0 < recent_lows.getD 1 0 ∧
           recent_lows.getD 1 0 < recent_lows.getD 2 0 then .weakening
        else if (listMax (takeLast 10 recent_highs) - current) / current > 0.03 then .broken
        else .strong
    | .short =>
        if recent_highs.getD 0 0 > recent_highs.getD 1 0 ∧
           recent_highs.getD 1 0 > recent_highs.getD 2 0 then .weakening
        else if (current - listMin (takeLast 10 recent_lows)) / current > 0.03 then .broken
        else .strong

/-- `RiskEngine._trail_stop` (risk_engine.py; the `update` argument of the
source is unused by its body). The `primary.get('distance_pct', 2.0)` default
never fires because every stop record carries the key. -/
def trail_stop (direction : Dir) (entry current : ℚ) (stops : List StopRec) :
    Option ℚ :=
  match stops with
  | [] => none
  | primary :: _ =>
      let primary_distance := primary.distance_pct
      match direction with
      | .long =>
          if (current - entry) / entry * 100 ≥ primary_distance then
            if entry * 1.001 > primary.price then some (entry * 1.001) else none
          else none
      | .short =>
          if (entry - current) / entry * 100 ≥ primary_distance then
            if entry * 0.999 < primary.price then some (entry * 0.999) else none
          else none

/-- `RiskEngine._calculate_position_size` (risk_engine.py): returns
(position_size, position_size_pct, risk_amount). -/
def calculate_position_size (cfg : Config) (account_balance risk_pct entry_price
    risk_distance atr_pct : ℚ) : ℚ × ℚ × ℚ :=
  let risk_pct :=
    if cfg.volatility_adjusted_sizing then
      let vol_factor := max 0.5 (min 2 (2 / max atr_pct 0.5))
      risk_pct * vol_factor
    else risk_pct
  let risk_amount := account_balance * (risk_pct / 100)
  let position_size := if risk_distance > 0 then risk_amount / risk_distance else 0
  let position_value := position_size * entry_price
  (position_size, (position_value / account_balance) * 100, risk_amount)

/-- Step 8 of `RiskEngine.calculate_risk_levels` (risk_engine.py, lines
973-985): the EXTREME-regime halving of `risk_per_trade_pct` followed by
`_calculate_position_size`. -/
def sizing_step (cfg : Config) (risk_per_trade_pct : ℚ) (regime : VolRegime)
    (account_balance entry_price risk_distance atr_pct : ℚ) : ℚ × ℚ × ℚ :=
  let adjusted_risk_pct :=
    if regime = .extreme then risk_per_trade_pct * cfg.extreme_vol_size_reduction
    else risk_per_trade_pct
  calculate_position_size cfg account_balance adjusted_risk_pct entry_price
    risk_distance atr_pct

/-- The effective risk percentage whose division by 100 and multiplication by
the balance yields `risk_amount` in `sizing_step`: the base
`risk_per_trade_pct` after the extreme-regime reduction and the volatility
factor of `_calculate_position_size`. -/
def effective_risk_pct (cfg : Config) (risk_per_trade_pct : ℚ) (regime : VolRegime)
    (atr_pct : ℚ) : ℚ :=
  let adjusted :=
    if regime = .extreme then risk_per_trade_pct * cfg.extreme_vol_size_reduction
    else risk_per_trade_pct
  if cfg.volatility_adjusted_sizing then
    adjusted * max 0.5 (min 2 (2 / max atr_pct 0.5))
  else adjusted

/-- The breakeven price actually used by the breakeven move:
`levels.breakeven_price or self._calculate_breakeven_price(entry, direction)`
(0.0 is falsy in Python). -/
def breakevenUsed (cfg : Config) (levels : RiskLevels) : ℚ :=
  if levels.breakeven_price ≠ 0 then levels.breakeven_price
  else calculate_breakeven_price cfg levels.entry_price levels.direction

/-- The `RiskUpdate(updated_stops=list(levels.stops), ...)` construction at
the top of `update_position`. -/
def initRiskUpdate (levels : RiskLevels) : RiskUpdate :=
  { updated_stops := levels.stops, updated_targets := levels.targets }

/-- `update_position`, current R-multiple block. -/
def step_current_r (levels : RiskLevels) (upd : PositionUpdate) (r : RiskUpdate) :
    RiskUpdate :=
  match levels.stops with
  | [] => r
  | s0 :: _ =>
      let risk_distance := |levels.entry_price - s0.price|
      if risk_distance > 0 then
        let profit_distance :=
          match levels.direction with
          | .long => upd.current_price - levels.entry_price
          | .short => levels.entry_price - upd.current_price
        { r with current_r_multiple := profit_distance / risk_distance }
      else r

/-- `update_position`, breakeven-stop block. The in-place mutation of
`levels.stops[0]` is modelled by returning the updated `RiskLevels`; since
`result.updated_stops` aliases the mutated dict in the source, it is updated
alongside. The Python guard `if current_stop and ...` makes a first stop
priced 0.0 falsy. -/
def step_breakeven (cfg : Config) (levels : RiskLevels) (r : RiskUpdate) :
    RiskUpdate × RiskLevels :=
  if cfg.enable_breakeven_stop ∧ r.current_r_multiple ≥ cfg.breakeven_trigger_r then
    let r := { r with breakeven_hit := true }
    match levels.stops with
    | [] => (r, levels)
    | s0 :: rest =>
        let breakeven_price := breakevenUsed cfg levels
        if s0.price ≠ 0 ∧ is_better_stop breakeven_price s0.price levels.direction then
          let stops' :=
            { s0 with
                price := breakeven_price,
                reason := "Breakeven stop (profit protection)",
                type := "breakeven" } :: rest
          ({ r with
              stop_moved := true, moved_to_breakeven := true,
              new_stop_price := some breakeven_price,
              updated_stops := stops' },
            { levels with stops := stops' })
        else (r, levels)
  else (r, levels)

/-- `update_position`, momentum-trailing block: runs when OHLCV data with at
least 5 bars is supplied and dynamic targets are enabled; gets or lazily
creates the per-key `MomentumState`, feeds the last 10 closes and last 5
candles to `MomentumTrailingTP.update`, and reports state and exit. -/
def step_momentum (cfg : Config) (m : MomentumTrailingTP.Cfg) (levels : RiskLevels)
    (upd : PositionUpdate) (ohlcv : Option (List Candle))
    (mstate : Option MomentumState) (r : RiskUpdate) :
    RiskUpdate × Option MomentumState :=
  match ohlcv with
  | none => (r, mstate)
  | some bars =>
      if cfg.enable_dynamic_targets ∧ bars.length ≥ 5 then
        let momentum_state := mstate.getD MomentumState.init
        let recent_closes := takeLast 10 (bars.map (·.cl))
        let recent_candles := takeLast 5 bars
        let su := MomentumTrailingTP.update m momentum_state upd.current_price
          r.current_r_multiple levels.direction recent_closes recent_candles
        let updated_state := su.1
        let r :=
          if updated_state.active then
            { r with
                momentum_trailing_active := true,
                momentum_trailing_level := updated_state.trailing_level,
                momentum_slope_strength := updated_state.slope_strength,
                momentum_buffer_pct := updated_state.trail_buffer_pct,
                new_target_added := true,
                new_target_price := some updated_state.trailing_level }
          else r
        let r :=
          if su.2 then
            { r with
                exit_signal := true, exit_reason := some .momentumTrail,
                exit_percentage := 100 }
          else r
        (r, some updated_state)
      else (r, mstate)

/-- `update_position`, divergence block: a divergence opposing the position
signals a 33 percent exit only when the current R-multiple exceeds 0.5 and
the (just stored) momentum state is absent or inactive. -/
def step_divergence (cfg : Config) (levels : RiskLevels)
    (ohlcv : Option (List Candle)) (mstate : Option MomentumState)
    (r : RiskUpdate) : RiskUpdate :=
  match ohlcv with
  | none => r
  | some bars =>
      if cfg.enable_divergence_detection then
        let dv := detect_divergence cfg (bars.map (·.cl)) levels.direction
        if dv.1 then
          let r := { r with divergence_detected := true, divergence_type := dv.2 }
          if (levels.direction = .long ∧ dv.2 = some .bearish) ∨
             (levels.direction = .short ∧ dv.2 = some .bullish) then
            if r.current_r_multiple > 0.5 ∧ (mstate.all fun s => !s.active) then
              { r with
                  exit_signal := true,
                  exit_reason := some (.divergence (dv.2.getD .bearish)),
                  exit_percentage := 33 }
            else r
          else r
        else r
      else r

/-- The first-touched-target `for ... break` loop of `update_position`. -/
def targetScan (direction : Dir) (current : ℚ) :
    List TargetRec → RiskUpdate → RiskUpdate
  | [], r => r
  | t :: rest, r =>
      if (direction = .long ∧ current ≥ t.price) ∨
         (direction = .short ∧ current ≤ t.price) then
        { r with
            exit_signal := true, exit_reason := some (.targetHit t.reason),
            exit_percentage := t.exit_percentage }
      else targetScan direction current rest r

/-- `update_position`, fixed-target block: skipped entirely when the stored
momentum state is active. -/
def step_targets (levels : RiskLevels) (upd : PositionUpdate)
    (mstate : Option MomentumState) (r : RiskUpdate) : RiskUpdate :=
  if mstate.any (·.active) then r
  else targetScan levels.direction upd.current_price levels.targets r

/-- `update_position`, guarding-line block: active once `bars_since_entry`
reaches the engine's `guarding_activation_bars`; a break forces a full exit,
overriding any signal set earlier in the call. -/
def step_guarding (cfg : Config) (levels : RiskLevels) (upd : PositionUpdate)
    (r : RiskUpdate) : RiskUpdate :=
  match levels.guarding_line with
  | none => r
  | some gp =>
      if upd.bars_since_entry ≥ cfg.guarding_activation_bars then
        let lvl := get_current_level gp upd.bars_since_entry
        let r := { r with guarding_active := true, guarding_level := some lvl }
        if check_break upd.current_price lvl levels.direction then
          { r with
              guarding_broken := true, exit_signal := true,
              exit_reason := some .guardingBroken, exit_percentage := 100 }
        else r
      else r

/-- `update_position`, legacy trail block (runs only when in profit and the
breakeven move did not fire this call). -/
def step_trail (levels : RiskLevels) (upd : PositionUpdate) (r : RiskUpdate) :
    RiskUpdate :=
  if upd.unrealized_pnl_pct > 0 ∧ ¬ r.moved_to_breakeven then
    match trail_stop levels.direction levels.entry_price upd.current_price
        levels.stops with
    | some ns => { r with stop_moved := true, new_stop_price := some ns }
    | none => r
  else r

/-- `update_position`, structure-health block: the Python guard
`if update.recent_lows and update.recent_highs` is falsy for `None` and for
an empty list; a broken verdict forces a full exit only when no exit signal
is set yet. -/
def step_structure (levels : RiskLevels) (upd : PositionUpdate) (r : RiskUpdate) :
    RiskUpdate :=
  match upd.recent_lows, upd.recent_highs with
  | some lows, some highs =>
      if lows.length ≠ 0 ∧ highs.length ≠ 0 then
        let h := check_structure_health levels.direction upd.current_price lows highs
        let r := { r with structure_health := h }
        if h = .broken ∧ ¬ r.exit_signal then
          { r with
              exit_signal := true, exit_reason := some .structureBroken,
              exit_percentage := 100 }
        else r
      else r
  | _, _ => r

/-- `RiskEngine.update_position` (risk_engine.py): the fixed per-bar
precedence sequence. The per-key entry of `self._momentum_states` is passed
in and returned explicitly; the possibly mutated `RiskLevels` is returned. -/
def update_position (cfg : Config) (m : MomentumTrailingTP.Cfg)
    (levels : RiskLevels) (upd : PositionUpdate) (ohlcv : Option (List Candle))
    (mstate : Option MomentumState) :
    RiskUpdate × RiskLevels × Option MomentumState :=
  let r1 := step_current_r levels upd (initRiskUpdate levels)
  let p2 := step_breakeven cfg levels r1
  let p3 := step_momentum cfg m p2.2 upd ohlcv mstate p2.1
  let r4 := step_divergence cfg p2.2 ohlcv p3.2 p3.1
  let r5 := step_targets p2.2 upd p3.2 r4
  let r6 := step_guarding cfg p2.2 upd r5
  let r7 := step_trail p2.2 upd r6
  let r8 := step_structure p2.2 upd r7
  (r8, p2.2, p3.2)

/-- `RiskEngine.reset_momentum_state`: deletes the per-key momentum state. -/
def reset_momentum_state (_mstate : Option MomentumState) : Option MomentumState :=
  none

/-- `RiskEngine._calculate_stops` (risk_engine.py, lines 1388-1483). The
`levels` argument is passed as its fields read by the body (entry price,
direction) plus the best structural support/resistance consulted from
`levels.structure_analysis` as an optional (price, confluence_score) pair;
the unused `ohlcv` argument is dropped. -/
def calculate_stops (cfg : Config) (entry : ℚ) (direction : Dir)
    (best_support best_resistance : Option (ℚ × ℚ)) (atr : ℚ) : List StopRec :=
  match direction with
  | .long =>
      let structural : List StopRec :=
        match best_support with
        | none => []
        | some (support_price, confluence_score) =>
            if support_price < entry then
              let stop_price := support_price - atr * 0.2
              let distance_pct := (entry - stop_price) / entry * 100
              if distance_pct ≤ cfg.max_stop_pct then
                [{ price := stop_price, type := "structural",
                   reason := "Below structural support",
                   confidence := confluence_score / 10,
                   distance_pct := distance_pct }]
              else []
            else []
      let stops :=
        if structural.length = 0 then
          let stop_price := entry - atr * cfg.atr_stop_multiplier
          [{ price := stop_price, type := "atr", reason := "ATR stop",
             confidence := 0.6,
             distance_pct := (entry - stop_price) / entry * 100 }]
        else structural
      if cfg.enable_multi_tier_stops then
        stops ++
          [{ price := entry - atr * cfg.atr_stop_multiplier * 1.5,
             type := "secondary", reason := "Secondary stop",
             confidence := 0.5,
             distance_pct := atr * cfg.atr_stop_multiplier * 1.5 / entry * 100 },
           { price := entry * (1 - cfg.max_stop_pct / 100),
             type := "safety_net", reason := "Maximum loss protection",
             confidence := 1, distance_pct := cfg.max_stop_pct }]
      else stops
  | .short =>
      let structural : List StopRec :=
        match best_resistance with
        | none => []
        | some (resistance_price, confluence_score) =>
            if resistance_price > entry then
              let stop_price := resistance_price + atr * 0.2
              let distance_pct := (stop_price - entry) / entry * 100
              if distance_pct ≤ cfg.max_stop_pct then
                [{ price := stop_price, type := "structural",
                   reason := "Above structural resistance",
                   confidence := confluence_score / 10,
                   distance_pct := distance_pct }]
              else []
            else []
      let stops :=
        if structural.length = 0 then
          let stop_price := entry + atr * cfg.atr_stop_multiplier
          [{ price := stop_price, type := "atr", reason := "ATR stop",
             confidence := 0.6,
             distance_pct := (stop_price - entry) / entry * 100 }]
        else structural
      if cfg.enable_multi_tier_stops then
        stops ++
          [{ price := entry + atr * cfg.atr_stop_multiplier * 1.5,
             type := "secondary", reason := "Secondary stop",
             confidence := 0.5,
             distance_pct := atr * cfg.atr_stop_multiplier * 1.5 / entry * 100 },
           { price := entry * (1 + cfg.max_stop_pct / 100),
             type := "safety_net", reason := "Maximum loss protection",
             confidence := 1, distance_pct := cfg.max_stop_pct }]
      else stops

end RiskEngine

/-- `RiskEngine.update_position` iterated over a sequence of per-bar inputs on
the same (threaded) `RiskLevels` object and momentum-state entry, collecting
each call's `RiskUpdate`. -/
def RiskEngine.runUpdates (cfg : Config) (m : MomentumTrailingTP.Cfg) :
    RiskEngine.RiskLevels → Option MomentumState →
    List (RiskEngine.PositionUpdate × Option (List Candle)) →
    List RiskEngine.RiskUpdate × RiskEngine.RiskLevels × Option MomentumState
  | levels, ms, [] => ([], levels, ms)
  | levels, ms, (upd, oh) :: rest =>
      let step := RiskEngine.update_position cfg m levels upd oh ms
      let tail := RiskEngine.runUpdates cfg m step.2.1 step.2.2 rest
      (step.1 :: tail.1, tail.2)

namespace Api

/-- Modelled from the spec: the `ExitReason` enumeration lives in
`core/session.py`, which is not among the repository files provided; its
closed value set is taken from spec section 6 ("Exit-reason enumeration
(closed set)"). -/
inductive ExitReason
  | target_hit
  | guarding_line_broken
  | structural_support_broken
  | opposite_mcf_signal
  | momentum_exhaustion
  | volume_climax
  | safety_net_5pct
  | manual_exit
deriving DecidableEq, Repr

/-- The member strings of the closed exit-reason enumeration (spec section 6;
each enum value's string is its own name, as `ExitReason(reason_str)` in
`execute_exit` parses them by value). -/
def exitReasonStrings : List String :=
  ["target_hit", "guarding_line_broken", "structural_support_broken",
   "opposite_mcf_signal", "momentum_exhaustion", "volume_climax",
   "safety_net_5pct", "manual_exit"]

/-- `ExitReason(reason_str)` as a total lookup: `some` for a member string,
`none` where the Python constructor raises `ValueError`. -/
def exitReasonFromString (s : String) : Option ExitReason :=
  if s = "target_hit" then some .target_hit
  else if s = "guarding_line_broken" then some .guarding_line_broken
  else if s = "structural_support_broken" then some .structural_support_broken
  else if s = "opposite_mcf_signal" then some .opposite_mcf_signal
  else if s = "momentum_exhaustion" then some .momentum_exhaustion
  else if s = "volume_climax" then some .volume_climax
  else if s = "safety_net_5pct" then some .safety_net_5pct
  else if s = "manual_exit" then some .manual_exit
  else none

/-- Python `a or b` on an optional string (None and "" are falsy). -/
def orStr (a : Option String) (b : String) : String :=
  match a with
  | some s => if s = "" then b else s
  | none => b

/-- The exit-reason resolution of `execute_exit` (session_routes.py, lines
416-421): `reason_str = request.exit_reason or request.reason or
"manual_exit"`, then `ExitReason(reason_str)` with `ValueError` caught and
replaced by `ExitReason.MANUAL`. Total: every input resolves to a member. -/
def resolve_exit_reason (exit_reason reason : Option String) : ExitReason :=
  let reason_str := orStr exit_reason (orStr reason "manual_exit")
  match exitReasonFromString reason_str with
  | some r => r
  | none => ExitReason.manual_exit

end Api

namespace CoreEngine

/-- `StopType` enum of core/models.py (used by engine.py). -/
inductive StopType
  | primary
  | secondary
  | safety_net
  | breakeven
deriving DecidableEq, Repr

/-- `TargetType` enum of core/models.py (used by engine.py). -/
inductive TargetType
  | structural
  | extension
  | vpvr
  | dynamic
deriving DecidableEq, Repr

/-- `StopLevel` dataclass of core/models.py as built by engine.py. -/
structure StopLevel where
  price : ℚ
  type : StopType
  confidence : ℚ
  reason : String
  distance_pct : ℚ
deriving DecidableEq, Repr

/-- `TargetLevel` dataclass of core/models.py as built by engine.py. -/
structure TargetLevel where
  price : ℚ
  type : TargetType
  exit_percentage : ℚ
  confidence : ℚ
  reason : String
  distance_pct : ℚ
deriving DecidableEq, Repr

/-- The fields of engine.py's `RiskEngineConfig` read by the functions
modelled here, with the dataclass defaults. -/
structure Config where
  atr_stop_multiplier : ℚ := 2
  max_stop_pct : ℚ := 5
  enable_multi_tier_stops : Bool := true
  min_rr_ratio : ℚ := 2
  partial_exit_ratios : List ℚ := [0.33, 0.33, 0.34]
  volatility_adjusted_sizing : Bool := true
deriving DecidableEq, Repr

/-- `RiskEngineConfig()` of engine.py with all defaults. -/
def defaultConfig : Config := {}

/-- `exit_ratios[i] if i < len(exit_ratios) else exit_ratios[-1]`. -/
def exitRatioAt (exit_ratios : List ℚ) (i : ℕ) : ℚ :=
  if i < exit_ratios.length then exit_ratios.getD i 0
  else exit_ratios.getD (exit_ratios.length - 1) 0

/-- `RiskEngine._calculate_stops` (engine.py): the setup argument is passed
as its two fields read by the body (entry price and direction); the unused
`market` argument is dropped. Supports and resistances are
(price, confidence) pairs. -/
def calculate_stops (cfg : Config) (entry : ℚ) (direction : Dir)
    (supports resistances : List (ℚ × ℚ)) (atr : ℚ) : List StopLevel :=
  match direction with
  | .long =>
      let structural : List StopLevel :=
        match supports with
        | [] => []
        | (support_price, confidence) :: _ =>
            if support_price < entry then
              let stop_price := support_price - atr * 0.2
              let distance_pct := (entry - stop_price) / entry * 100
              if distance_pct ≤ cfg.max_stop_pct then
                [{ price := stop_price, type := .primary, confidence := confidence,
                   reason := "Below support", distance_pct := distance_pct }]
              else []
            else []
      let stops :=
        if structural.length = 0 then
          let stop_price := entry - atr * cfg.atr_stop_multiplier
          [{ price := stop_price, type := .primary, confidence := 0.6,
             reason := "ATR stop", distance_pct := (entry - stop_price) / entry * 100 }]
        else structural
      if cfg.enable_multi_tier_stops then
        let secondary_price := entry - atr * cfg.atr_stop_multiplier * 1.5
        let safety_price := entry * (1 - cfg.max_stop_pct / 100)
        stops ++
          [{ price := secondary_price, type := .secondary, confidence := 0.5,
             reason := "Secondary ATR stop",
             distance_pct := (entry - secondary_price) / entry * 100 },
           { price := safety_price, type := .safety_net, confidence := 1,
             reason := "Maximum loss protection",
             distance_pct := cfg.max_stop_pct }]
      else stops
  | .short =>
      let structural : List StopLevel :=
        match resistances with
        | [] => []
        | (resist_price, confidence) :: _ =>
            if resist_price > entry then
              let stop_price := resist_price + atr * 0.2
              let distance_pct := (stop_price - entry) / entry * 100
              if distance_pct ≤ cfg.max_stop_pct then
                [{ price := stop_price, type := .primary, confidence := confidence,
                   reason := "Above resistance", distance_pct := distance_pct }]
              else []
            else []
      let stops :=
        if structural.length = 0 then
          let stop_price := entry + atr * cfg.atr_stop_multiplier
          [{ price := stop_price, type := .primary, confidence := 0.6,
             reason := "ATR stop", distance_pct := (stop_price - entry) / entry * 100 }]
        else structural
      if cfg.enable_multi_tier_stops then
        let secondary_price := entry + atr * cfg.atr_stop_multiplier * 1.5
        let safety_price := entry * (1 + cfg.max_stop_pct / 100)
        stops ++
          [{ price := secondary_price, type := .secondary, confidence := 0.5,
             reason := "Secondary ATR stop",
             distance_pct := (secondary_price - entry) / entry * 100 },
           { price := safety_price, type := .safety_net, confidence := 1,
             reason := "Maximum loss protection",
             distance_pct := cfg.max_stop_pct }]
      else stops

/-- The `for i, (price, confidence) in enumerate(valid[:3])` loop of
`_calculate_targets` for longs: the enumerate index advances on every
candidate; only candidates whose risk:reward reaches `min_rr_ratio` become
targets. -/
def structTargetsLong (cfg : Config) (entry primary_stop_dist : ℚ) :
    ℕ → List (ℚ × ℚ) → List TargetLevel
  | _, [] => []
  | i, (resist_price, confidence) :: rest =>
      let rr := (resist_price - entry) / primary_stop_dist
      (if rr ≥ cfg.min_rr_ratio then
        [{ price := resist_price, type := .structural,
           exit_percentage := exitRatioAt cfg.partial_exit_ratios i * 100,
           confidence := confidence, reason := "Resistance level",
           distance_pct := (resist_price - entry) / entry * 100 }]
      else []) ++ structTargetsLong cfg entry primary_stop_dist (i + 1) rest

/-- Mirror of `structTargetsLong` for shorts. -/
def structTargetsShort (cfg : Config) (entry primary_stop_dist : ℚ) :
    ℕ → List (ℚ × ℚ) → List TargetLevel
  | _, [] => []
  | i, (support_price, confidence) :: rest =>
      let rr := (entry - support_price) / primary_stop_dist
      (if rr ≥ cfg.min_rr_ratio then
        [{ price := support_price, type := .structural,
           exit_percentage := exitRatioAt cfg.partial_exit_ratios i * 100,
           confidence := confidence, reason := "Support level",
           distance_pct := (entry - support_price) / entry * 100 }]
      else []) ++ structTargetsShort cfg entry primary_stop_dist (i + 1) rest

/-- One R-multiple fallback target of `_calculate_targets`. -/
def extensionTarget (cfg : Config) (entry primary_stop_dist : ℚ) (direction : Dir)
    (i : ℕ) (multiple : ℚ) : TargetLevel :=
  let target_price :=
    match direction with
    | .long => entry + primary_stop_dist * multiple
    | .short => entry - primary_stop_dist * multiple
  { price := target_price, type := .extension,
    exit_percentage := exitRatioAt cfg.partial_exit_ratios i * 100,
    confidence := 0.5, reason := "R target",
    distance_pct :=
      (match direction with
       | .long => (target_price - entry) / entry
       | .short => (entry - target_price) / entry) * 100 }

/-- `RiskEngine._calculate_targets` (engine.py): structural candidates on the
profit side of entry, sorted by price (ascending for long, descending for
short, a stable sort like Python's), first three enumerated against the
partial-exit schedule; R-multiple fallback ladder {2, 3, 5} when no
structural candidate qualifies. -/
def calculate_targets (cfg : Config) (entry : ℚ) (direction : Dir)
    (supports resistances : List (ℚ × ℚ)) (atr : ℚ) : List TargetLevel :=
  let primary_stop_dist := atr * cfg.atr_stop_multiplier
  match direction with
  | .long =>
      let valid_resistances :=
        List.insertionSort (fun a b : ℚ × ℚ => a.1 ≤ b.1)
          (resistances.filter (fun rc => rc.1 > entry))
      let targets := structTargetsLong cfg entry primary_stop_dist 0
        (valid_resistances.take 3)
      if targets.length = 0 then
        [extensionTarget cfg entry primary_stop_dist .long 0 2,
         extensionTarget cfg entry primary_stop_dist .long 1 3,
         extensionTarget cfg entry primary_stop_dist .long 2 5]
      else targets
  | .short =>
      let valid_supports :=
        List.insertionSort (fun a b : ℚ × ℚ => b.1 ≤ a.1)
          (supports.filter (fun sc => sc.1 < entry))
      let targets := structTargetsShort cfg entry primary_stop_dist 0
        (valid_supports.take 3)
      if targets.length = 0 then
        [extensionTarget cfg entry primary_stop_dist .short 0 2,
         extensionTarget cfg entry primary_stop_dist .short 1 3,
         extensionTarget cfg entry primary_stop_dist .short 2 5]
      else targets

/-- `RiskEngine._calculate_position_size` (engine.py, lines 486-515): the
setup argument is passed as its three fields read by the body. Returns
(position_size, position_pct, risk_amount). -/
def calculate_position_size (cfg : Config) (risk_per_trade_pct account_balance
    entry_price risk_distance atr_pct : ℚ) : ℚ × ℚ × ℚ :=
  let risk_pct :=
    if cfg.volatility_adjusted_sizing then
      let vol_factor := max 0.5 (min 2 (2 / max atr_pct 0.5))
      risk_per_trade_pct * vol_factor
    else risk_per_trade_pct
  let risk_amount := account_balance * (risk_pct / 100)
  let position_size := if risk_distance > 0 then risk_amount / risk_distance else 0
  let position_value := position_size * entry_price
  (position_size, position_value / account_balance * 100, risk_amount)

end CoreEngine

namespace RiskEngine

/-- The stored stop ladder starts with the breakeven stop the engine would
use: the state reached right after the breakeven move fires. -/
def atBreakevenStop (cfg : Config) (levels : RiskLevels) : Prop :=
  levels.stops.head?.map (·.price) = some (breakevenUsed cfg levels)

/-- Close series of a concrete `update_position` scenario: the second half
makes a higher high (106) while the last 14 deltas are losses on balance
(RSI below 50), so a bearish divergence is detected for a long. -/
def divClozes : List ℚ :=
  [100, 101, 102, 103, 104, 103, 102, 101, 100, 99,
   106, 105, 104, 103, 102, 101, 100, 99, 98, 97]

/-- The close series as flat candles (open = high = low = close). -/
def divBars : List Candle := divClozes.map (fun p => ⟨p, p, p, p⟩)

/-- Concrete long `RiskLevels`: entry 100, primary stop 92 (risk 8), one
fixed target at 105 taking 50 percent. -/
def divLevels : RiskLevels :=
  { stops := [{ price := 92, type := "atr", reason := "s", confidence := 0.6,
                distance_pct := 8 }],
    targets := [{ price := 105, type := "structural", reason := "T1",
                  exit_percentage := 50, distance_pct := 5, confidence := 0.75 }],
    entry_price := 100, direction := .long, guarding_line := none,
    breakeven_price := 100.1 }

/-- Concrete bar input: price 106 gives R = 0.75 (above 0.5, below the 1.0
breakeven/momentum threshold) and touches the 105 target. -/
def divUpd : PositionUpdate :=
  { current_price := 106, bars_since_entry := 3, highest_since_entry := 106,
    lowest_since_entry := 99, unrealized_pnl_pct := 6 }

end RiskEngine

/-! Frame lemmas for the `update_position` pipeline: which result fields each
step can change. -/

namespace RiskEngine

theorem initRiskUpdate_fields (levels : RiskLevels) :
    (initRiskUpdate levels).exit_signal = false ∧
    (initRiskUpdate levels).exit_reason = none ∧
    (initRiskUpdate levels).moved_to_breakeven = false := by
  simp [initRiskUpdate]

theorem step_current_r_frame (levels : RiskLevels) (upd : PositionUpdate)
    (r : RiskUpdate) :
    (step_current_r levels upd r).exit_signal = r.exit_signal ∧
    (step_current_r levels upd r).exit_reason = r.exit_reason ∧
    (step_current_r levels upd r).exit_percentage = r.exit_percentage ∧
    (step_current_r levels upd r).moved_to_breakeven = r.moved_to_breakeven ∧
    (step_current_r levels upd r).guarding_broken = r.guarding_broken := by
  unfold step_current_r
  rcases levels.stops with _ | ⟨s0, rest⟩ <;> simp <;> split <;> simp

theorem step_breakeven_frame (cfg : Config) (levels : RiskLevels) (r : RiskUpdate) :
    (step_breakeven cfg levels r).1.exit_signal = r.exit_signal ∧
    (step_breakeven cfg levels r).1.exit_reason = r.exit_reason ∧
    (step_breakeven cfg levels r).1.exit_percentage = r.exit_percentage ∧
    (step_breakeven cfg levels r).1.current_r_multiple = r.current_r_multiple ∧
    (step_breakeven cfg levels r).1.guarding_broken = r.guarding_broken := by
  unfold step_breakeven
  split
  · rcases levels.stops with _ | ⟨s0, rest⟩ <;> simp <;> split <;> simp
  · simp

/-- `step_breakeven` either leaves both the result's breakeven flag and the
levels untouched, or fires: the flag is set, the trigger condition held, the
first stop is repriced to the breakeven price, and every other `RiskLevels`
field (and the tail of the ladder) is unchanged. -/
theorem step_breakeven_cases (cfg : Config) (levels : RiskLevels) (r : RiskUpdate) :
    ((step_breakeven cfg levels r).2 = levels ∧
      (step_breakeven cfg levels r).1.moved_to_breakeven = r.moved_to_breakeven) ∨
    ((step_breakeven cfg levels r).1.moved_to_breakeven = true ∧
      cfg.enable_breakeven_stop = true ∧
      r.current_r_multiple ≥ cfg.breakeven_trigger_r ∧
      ∃ s0 rest, levels.stops = s0 :: rest ∧
        (step_breakeven cfg levels r).2 =
          { levels with stops :=
              { s0 with
                  price := breakevenUsed cfg levels,
                  reason := "Breakeven stop (profit protection)",
                  type := "breakeven" } :: rest }) := by
  unfold step_breakeven
  split
  · rename_i hcond
    rcases hstops : levels.stops with _ | ⟨s0, rest⟩
    · simp
    · simp only
      split
      · right
        refine ⟨by simp, ?_, ?_, s0, rest, rfl, by simp⟩
        · exact hcond.1
        · exact hcond.2
      · simp
  · simp

theorem step_breakeven_blocked (cfg : Config) (levels : RiskLevels) (r : RiskUpdate)
    (h : atBreakevenStop cfg levels) :
    (step_breakeven cfg levels r).2 = levels ∧
    (step_breakeven cfg levels r).1.moved_to_breakeven = r.moved_to_breakeven := by
  unfold step_breakeven
  split
  · rcases hstops : levels.stops with _ | ⟨s0, rest⟩
    · simp
    · have hprice : s0.price = breakevenUsed cfg levels := by
        have := h
        unfold atBreakevenStop at this
        rw [hstops] at this
        simpa using this
      simp only
      split
      · rename_i hfire
        exfalso
        rcases hfire with ⟨hne, hbet⟩
        rw [hprice] at hbet
        unfold is_better_stop at hbet
        rcases hdir : levels.direction <;> rw [hdir] at hbet <;> simp at hbet
      · simp
  · simp

/-- The active branch of `MomentumTrailingTP.update` never clears the active
flag, exit or not. -/
theorem momentum_update_keeps_active (m : MomentumTrailingTP.Cfg)
    (s : MomentumState) (cp cr : ℚ) (d : Dir) (closes : List ℚ)
    (candles : List Candle) (h : s.active = true) :
    (MomentumTrailingTP.update m s cp cr d closes candles).1.active = true := by
  unfold MomentumTrailingTP.update
  rw [if_neg (by simp [h])]
  split <;> (try split) <;> (try split) <;> simp [h, apply_ite]

theorem step_momentum_frame (cfg : Config) (m : MomentumTrailingTP.Cfg)
    (levels : RiskLevels) (upd : PositionUpdate) (ohlcv : Option (List Candle))
    (ms : Option MomentumState) (r : RiskUpdate) :
    (step_momentum cfg m levels upd ohlcv ms r).1.moved_to_breakeven =
        r.moved_to_breakeven ∧
    (step_momentum cfg m levels upd ohlcv ms r).1.current_r_multiple =
        r.current_r_multiple ∧
    (step_momentum cfg m levels upd ohlcv ms r).1.guarding_broken =
        r.guarding_broken := by
  unfold step_momentum
  rcases ohlcv with _ | bars
  · simp
  · simp only
    split
    · split <;> split <;> simp
    · simp

/-- `step_momentum` either leaves the exit triple alone, or fires a momentum
exit (full exit, momentum cause) and stores an active momentum state. -/
theorem step_momentum_exit_cases (cfg : Config) (m : MomentumTrailingTP.Cfg)
    (levels : RiskLevels) (upd : PositionUpdate) (ohlcv : Option (List Candle))
    (ms : Option MomentumState) (r : RiskUpdate) :
    ((step_momentum cfg m levels upd ohlcv ms r).1.exit_signal = r.exit_signal ∧
     (step_momentum cfg m levels upd ohlcv ms r).1.exit_reason = r.exit_reason ∧
     (step_momentum cfg m levels upd ohlcv ms r).1.exit_percentage =
        r.exit_percentage) ∨
    ((step_momentum cfg m levels upd ohlcv ms r).1.exit_signal = true ∧
     (step_momentum cfg m levels upd ohlcv ms r).1.exit_reason =
        some ExitCause.momentumTrail ∧
     (step_momentum cfg m levels upd ohlcv ms r).1.exit_percentage = 100 ∧
     ∃ s2, (step_momentum cfg m levels upd ohlcv ms r).2 = some s2 ∧
        s2.active = true) := by
  unfold step_momentum
  rcases ohlcv with _ | bars
  · simp
  · simp only
    split
    · rename_i hrun
      set u := MomentumTrailingTP.update m (ms.getD MomentumState.init)
        upd.current_price r.current_r_multiple levels.direction
        (takeLast 10 (List.map (fun c => c.cl) bars)) (takeLast 5 bars) with hu
      rcases hexit : u.2 with _ | _
      · left
        simp only [hexit, Bool.false_eq_true, if_false]
        split <;> simp
      · right
        have hact : u.1.active = true := by
          rw [hu]
          unfold MomentumTrailingTP.update
          rcases hab : (ms.getD MomentumState.init).active with _ | _
          · -- inactive branch never exits
            exfalso
            rw [hu] at hexit
            unfold MomentumTrailingTP.update at hexit
            rw [if_pos (by simp [hab])] at hexit
            split at hexit <;> try simp at hexit
            split at hexit <;> simp at hexit
          · rw [if_neg (by simp [hab])]
            split <;> (try split) <;> (try split) <;> simp [hab, apply_ite]
        refine ⟨?_, ?_, ?_, u.1, ?_, hact⟩ <;> simp [hact, hexit]
    · simp

/-- When the stored state for the key is already active, the state stored
back by `step_momentum` is still active. -/
theorem step_momentum_keeps_active (cfg : Config) (m : MomentumTrailingTP.Cfg)
    (levels : RiskLevels) (upd : PositionUpdate) (ohlcv : Option (List Candle))
    (s : MomentumState) (r : RiskUpdate) (h : s.active = true) :
    ∃ s2, (step_momentum cfg m levels upd ohlcv (some s) r).2 = some s2 ∧
      s2.active = true := by
  unfold step_momentum
  rcases ohlcv with _ | bars
  · exact ⟨s, rfl, h⟩
  · simp only
    split
    · refine ⟨_, rfl, ?_⟩
      exact momentum_update_keeps_active m s _ _ _ _ _ (by simpa using h)
    · exact ⟨s, rfl, h⟩

theorem step_divergence_frame (cfg : Config) (levels : RiskLevels)
    (ohlcv : Option (List Candle)) (ms : Option MomentumState) (r : RiskUpdate) :
    (step_divergence cfg levels ohlcv ms r).moved_to_breakeven =
        r.moved_to_breakeven ∧
    (step_divergence cfg levels ohlcv ms r).current_r_multiple =
        r.current_r_multiple ∧
    (step_divergence cfg levels ohlcv ms r).guarding_broken = r.guarding_broken := by
  unfold step_divergence
  rcases ohlcv with _ | bars
  · simp
  · simp only
    split
    · split
      · split
        · split <;> simp
        · simp
      · simp
    · simp

/-- `step_divergence` either leaves the exit triple alone or fires the
33-percent divergence exit. -/
theorem step_divergence_exit_cases (cfg : Config) (levels : RiskLevels)
    (ohlcv : Option (List Candle)) (ms : Option MomentumState) (r : RiskUpdate) :
    ((step_divergence cfg levels ohlcv ms r).exit_signal = r.exit_signal ∧
     (step_divergence cfg levels ohlcv ms r).exit_reason = r.exit_reason ∧
     (step_divergence cfg levels ohlcv ms r).exit_percentage = r.exit_percentage) ∨
    ((step_divergence cfg levels ohlcv ms r).exit_signal = true ∧
     (∃ t, (step_divergence cfg levels ohlcv ms r).exit_reason =
        some (ExitCause.divergence t)) ∧
     (step_divergence cfg levels ohlcv ms r).exit_percentage = 33) := by
  unfold step_divergence
  rcases ohlcv with _ | bars
  · left; simp
  · simp only
    split
    · split
      · split
        · split
          · right; simp
          · left; simp
        · left; simp
      · left; simp
    · left; simp

/-- With an active stored momentum state, the divergence step never touches
the exit triple. -/
theorem step_divergence_active (cfg : Config) (levels : RiskLevels)
    (ohlcv : Option (List Candle)) (s : MomentumState) (r : RiskUpdate)
    (h : s.active = true) :
    (step_divergence cfg levels ohlcv (some s) r).exit_signal = r.exit_signal ∧
    (step_divergence cfg levels ohlcv (some s) r).exit_reason = r.exit_reason ∧
    (step_divergence cfg levels ohlcv (some s) r).exit_percentage =
        r.exit_percentage := by
  unfold step_divergence
  rcases ohlcv with _ | bars
  · simp
  · simp only
    split
    · split
      · split
        · rw [if_neg (by simp [h])]
          simp
        · simp
      · simp
    · simp

theorem targetScan_cases (d : Dir) (c : ℚ) (ts : List TargetRec) (r : RiskUpdate) :
    targetScan d c ts r = r ∨
    ∃ t ∈ ts, targetScan d c ts r =
      { r with
          exit_signal := true, exit_reason := some (ExitCause.targetHit t.reason),
          exit_percentage := t.exit_percentage } := by
  induction ts with
  | nil => left; rfl
  | cons t rest ih =>
      unfold targetScan
      split
      · right
        exact ⟨t, by simp, rfl⟩
      · rcases ih with h | ⟨t2, ht2, h⟩
        · left; exact h
        · right; exact ⟨t2, by simp [ht2], h⟩

theorem step_targets_active (levels : RiskLevels) (upd : PositionUpdate)
    (s : MomentumState) (r : RiskUpdate) (h : s.active = true) :
    step_targets levels upd (some s) r = r := by
  unfold step_targets
  simp [h]

/-- `step_targets` either returns the input unchanged or overwrites with a
target-hit exit. -/
theorem step_targets_cases (levels : RiskLevels) (upd : PositionUpdate)
    (ms : Option MomentumState) (r : RiskUpdate) :
    step_targets levels upd ms r = r ∨
    ∃ t ∈ levels.targets, step_targets levels upd ms r =
      { r with
          exit_signal := true, exit_reason := some (ExitCause.targetHit t.reason),
          exit_percentage := t.exit_percentage } := by
  unfold step_targets
  split
  · left; rfl
  · exact targetScan_cases _ _ _ _

theorem step_guarding_cases (cfg : Config) (levels : RiskLevels)
    (upd : PositionUpdate) (r : RiskUpdate) :
    (step_guarding cfg levels upd r).moved_to_breakeven = r.moved_to_breakeven ∧
    (step_guarding cfg levels upd r).current_r_multiple = r.current_r_multiple ∧
    (((step_guarding cfg levels upd r).exit_signal = r.exit_signal ∧
      (step_guarding cfg levels upd r).exit_reason = r.exit_reason ∧
      (step_guarding cfg levels upd r).exit_percentage = r.exit_percentage ∧
      (step_guarding cfg levels upd r).guarding_broken = r.guarding_broken) ∨
     ((step_guarding cfg levels upd r).guarding_broken = true ∧
      (step_guarding cfg levels upd r).exit_signal = true ∧
      (step_guarding cfg levels upd r).exit_reason =
        some ExitCause.guardingBroken ∧
      (step_guarding cfg levels upd r).exit_percentage = 100)) := by
  unfold step_guarding
  rcases levels.guarding_line with _ | gp
  · simp
  · simp only
    split
    · split
      · simp
      · simp
    · simp

theorem step_trail_frame (levels : RiskLevels) (upd : PositionUpdate)
    (r : RiskUpdate) :
    (step_trail levels upd r).exit_signal = r.exit_signal ∧
    (step_trail levels upd r).exit_reason = r.exit_reason ∧
    (step_trail levels upd r).exit_percentage = r.exit_percentage ∧
    (step_trail levels upd r).moved_to_breakeven = r.moved_to_breakeven ∧
    (step_trail levels upd r).current_r_multiple = r.current_r_multiple ∧
    (step_trail levels upd r).guarding_broken = r.guarding_broken := by
  unfold step_trail
  split
  · split <;> simp
  · simp

theorem step_structure_cases (levels : RiskLevels) (upd : PositionUpdate)
    (r : RiskUpdate) :
    (step_structure levels upd r).moved_to_breakeven = r.moved_to_breakeven ∧
    (step_structure levels upd r).current_r_multiple = r.current_r_multiple ∧
    (step_structure levels upd r).guarding_broken = r.guarding_broken ∧
    (r.exit_signal = true →
      (step_structure levels upd r).exit_signal = r.exit_signal ∧
      (step_structure levels upd r).exit_reason = r.exit_reason ∧
      (step_structure levels upd r).exit_percentage = r.exit_percentage) ∧
    (((step_structure levels upd r).exit_signal = r.exit_signal ∧
      (step_structure levels upd r).exit_reason = r.exit_reason ∧
      (step_structure levels upd r).exit_percentage = r.exit_percentage) ∨
     ((step_structure levels upd r).exit_signal = true ∧
      (step_structure levels upd r).exit_reason =
        some ExitCause.structureBroken ∧
      (step_structure levels upd r).exit_percentage = 100)) := by
  unfold step_structure
  rcases upd.recent_lows with _ | lows <;> rcases upd.recent_highs with _ | highs
  · simp
  · simp
  · simp
  · simp only
    split
    · split
      · rename_i hcond
        refine ⟨by simp, by simp, by simp, ?_, ?_⟩
        · intro hsig
          exact absurd hsig (by simpa using hcond.2)
        · right; simp
      · simp
    · simp

end RiskEngine

/-! Claim C1: position-sizing risk amount and the effective-risk ratio. -/

/-- C1, counterexample: with the default configuration, base risk 1 percent,
EXTREME volatility regime and ATR at 4 percent of price, the effective risk
percentage is 0.25 — the ratio to the base risk is 1/4, outside [0.5, 2.0],
because the extreme-regime halving is applied on top of the volatility
factor clamp. (Risk amount on a 100000 balance: 250.) -/
theorem c1_risk_ratio_counterexample :
    (RiskEngine.sizing_step RiskEngine.defaultConfig 1 VolRegime.extreme
        100000 95000 1200 4).2.2 = 250 ∧
    RiskEngine.effective_risk_pct RiskEngine.defaultConfig 1 VolRegime.extreme 4 / 1
      = 1/4 ∧
    ¬ ((1 : ℚ)/2 ≤ 1/4) := by
  refine ⟨?_, ?_, by norm_num⟩ <;>
    · simp [RiskEngine.sizing_step, RiskEngine.calculate_position_size,
        RiskEngine.effective_risk_pct, RiskEngine.defaultConfig, max_def, min_def]
      norm_num

/-- C1, amended: with the default configuration, risk_amount always equals
account_balance × effective_risk_pct/100; the ratio
effective_risk_pct / base risk_per_trade_pct lies within [0.5, 2.0] in the
low, normal and high regimes, but within [0.25, 1.0] in the extreme regime
(the clamped volatility factor is additionally halved there). The
engine.py `_calculate_position_size` (which has no regime input) always
keeps the ratio within [0.5, 2.0]. -/
theorem c1_risk_amount_effective_pct (base balance entry dist atr_pct : ℚ)
    (regime : VolRegime) (hb : 0 < base) :
    (RiskEngine.sizing_step RiskEngine.defaultConfig base regime balance entry
        dist atr_pct).2.2 =
      balance *
        (RiskEngine.effective_risk_pct RiskEngine.defaultConfig base regime atr_pct
          / 100) ∧
    (regime ≠ VolRegime.extreme →
      1/2 ≤ RiskEngine.effective_risk_pct RiskEngine.defaultConfig base regime
          atr_pct / base ∧
      RiskEngine.effective_risk_pct RiskEngine.defaultConfig base regime atr_pct
          / base ≤ 2) ∧
    (regime = VolRegime.extreme →
      1/4 ≤ RiskEngine.effective_risk_pct RiskEngine.defaultConfig base regime
          atr_pct / base ∧
      RiskEngine.effective_risk_pct RiskEngine.defaultConfig base regime atr_pct
          / base ≤ 1) ∧
    (∀ ecfg : CoreEngine.Config, ∃ f : ℚ, 1/2 ≤ f ∧ f ≤ 2 ∧
      (CoreEngine.calculate_position_size ecfg base balance entry dist
          atr_pct).2.2 = balance * (base * f / 100)) := by
  have hF1 : (1 : ℚ)/2 ≤ max 0.5 (min 2 (2 / max atr_pct 0.5)) := by
    have := le_max_left (0.5 : ℚ) (min 2 (2 / max atr_pct 0.5))
    linarith
  have hF2 : max 0.5 (min 2 (2 / max atr_pct 0.5)) ≤ (2 : ℚ) := by
    refine max_le (by norm_num) (min_le_left _ _)
  refine ⟨?_, ?_, ?_, ?_⟩
  · rcases regime <;>
      simp [RiskEngine.sizing_step, RiskEngine.calculate_position_size,
        RiskEngine.effective_risk_pct, RiskEngine.defaultConfig]
  · intro hne
    have heff : RiskEngine.effective_risk_pct RiskEngine.defaultConfig base regime
        atr_pct = base * max 0.5 (min 2 (2 / max atr_pct 0.5)) := by
      rcases regime <;> simp_all [RiskEngine.effective_risk_pct,
        RiskEngine.defaultConfig]
    rw [heff, mul_div_cancel_left₀ _ (ne_of_gt hb)]
    constructor <;> linarith
  · intro hex
    have heff : RiskEngine.effective_risk_pct RiskEngine.defaultConfig base regime
        atr_pct = base * (0.5 * max 0.5 (min 2 (2 / max atr_pct 0.5))) := by
      subst hex
      simp [RiskEngine.effective_risk_pct, RiskEngine.defaultConfig]
      ring
    rw [heff, mul_div_cancel_left₀ _ (ne_of_gt hb)]
    constructor <;> nlinarith
  · intro ecfg
    by_cases hv : ecfg.volatility_adjusted_sizing
    · refine ⟨max 0.5 (min 2 (2 / max atr_pct 0.5)), hF1, hF2, ?_⟩
      simp [CoreEngine.calculate_position_size, hv]
    · refine ⟨1, by norm_num, by norm_num, ?_⟩
      simp [CoreEngine.calculate_position_size, hv]

/-- C1, witness: the amended theorem applied at base 1 percent, normal
regime, ATR 2 percent, balance 100000. -/
theorem c1_risk_amount_witness :
    (RiskEngine.sizing_step RiskEngine.defaultConfig 1 VolRegime.normal
        100000 95000 1200 2).2.2 =
      100000 *
        (RiskEngine.effective_risk_pct RiskEngine.defaultConfig 1 VolRegime.normal 2
          / 100) := by
  exact (c1_risk_amount_effective_pct 1 100000 95000 1200 2 VolRegime.normal
    (by norm_num)).1

/-! Claim C2: exit-signal precedence inside one `update_position` call. -/

/-- Once an exit signal is set before the guarding-line step, the remaining
steps (guarding, legacy trail, structure health) either leave the exit triple
unchanged or report a guarding-line breach. -/
theorem exit_tail_cases (cfg : RiskEngine.Config) (levels : RiskEngine.RiskLevels)
    (upd : RiskEngine.PositionUpdate) (r : RiskEngine.RiskUpdate)
    (h : r.exit_signal = true) :
    (RiskEngine.step_structure levels upd (RiskEngine.step_trail levels upd
        (RiskEngine.step_guarding cfg levels upd r))).guarding_broken = true ∨
    ((RiskEngine.step_structure levels upd (RiskEngine.step_trail levels upd
        (RiskEngine.step_guarding cfg levels upd r))).exit_reason = r.exit_reason ∧
     (RiskEngine.step_structure levels upd (RiskEngine.step_trail levels upd
        (RiskEngine.step_guarding cfg levels upd r))).exit_percentage =
        r.exit_percentage ∧
     (RiskEngine.step_structure levels upd (RiskEngine.step_trail levels upd
        (RiskEngine.step_guarding cfg levels upd r))).exit_signal = true) := by
  obtain ⟨-, -, hg⟩ := RiskEngine.step_guarding_cases cfg levels upd r
  obtain ⟨t1, t2, t3, -, -, t6⟩ := RiskEngine.step_trail_frame levels upd
    (RiskEngine.step_guarding cfg levels upd r)
  obtain ⟨-, -, sgb, spres, -⟩ := RiskEngine.step_structure_cases levels upd
    (RiskEngine.step_trail levels upd (RiskEngine.step_guarding cfg levels upd r))
  rcases hg with ⟨ga, gb, gc, _⟩ | ⟨gbT, _, _, _⟩
  · right
    have hsig7 : (RiskEngine.step_trail levels upd
        (RiskEngine.step_guarding cfg levels upd r)).exit_signal = true := by
      rw [t1, ga, h]
    obtain ⟨p1, p2, p3⟩ := spres hsig7
    refine ⟨?_, ?_, ?_⟩
    · rw [p2, t2, gb]
    · rw [p3, t3, gc]
    · rw [p1, hsig7]
  · left
    rw [sgb, t6, gbT]

/-- C2, counterexample: at `divLevels` / `divUpd` / `divBars` the divergence
step (step 4 of the precedence sequence) sets the exit signal with the
33-percent divergence reason, yet the fixed-target step later in the same
call overwrites it with the target-hit reason and the target's 50-percent
exit fraction, with no guarding-line breach involved — a later non-guarding
step overwrote an earlier signal. -/
theorem c2_precedence_counterexample :
    (RiskEngine.step_divergence RiskEngine.defaultConfig RiskEngine.divLevels
        (some RiskEngine.divBars)
        (RiskEngine.step_momentum RiskEngine.defaultConfig
          MomentumTrailingTP.engineMomCfg RiskEngine.divLevels RiskEngine.divUpd
          (some RiskEngine.divBars) none
          (RiskEngine.step_breakeven RiskEngine.defaultConfig RiskEngine.divLevels
            (RiskEngine.step_current_r RiskEngine.divLevels RiskEngine.divUpd
              (RiskEngine.initRiskUpdate RiskEngine.divLevels))).1).2
        (RiskEngine.step_momentum RiskEngine.defaultConfig
          MomentumTrailingTP.engineMomCfg RiskEngine.divLevels RiskEngine.divUpd
          (some RiskEngine.divBars) none
          (RiskEngine.step_breakeven RiskEngine.defaultConfig RiskEngine.divLevels
            (RiskEngine.step_current_r RiskEngine.divLevels RiskEngine.divUpd
              (RiskEngine.initRiskUpdate RiskEngine.divLevels))).1).1).exit_reason =
      some (ExitCause.divergence DivType.bearish) ∧
    (RiskEngine.step_divergence RiskEngine.defaultConfig RiskEngine.divLevels
        (some RiskEngine.divBars)
        (RiskEngine.step_momentum RiskEngine.defaultConfig
          MomentumTrailingTP.engineMomCfg RiskEngine.divLevels RiskEngine.divUpd
          (some RiskEngine.divBars) none
          (RiskEngine.step_breakeven RiskEngine.defaultConfig RiskEngine.divLevels
            (RiskEngine.step_current_r RiskEngine.divLevels RiskEngine.divUpd
              (RiskEngine.initRiskUpdate RiskEngine.divLevels))).1).2
        (RiskEngine.step_momentum RiskEngine.defaultConfig
          MomentumTrailingTP.engineMomCfg RiskEngine.divLevels RiskEngine.divUpd
          (some RiskEngine.divBars) none
          (RiskEngine.step_breakeven RiskEngine.defaultConfig RiskEngine.divLevels
            (RiskEngine.step_current_r RiskEngine.divLevels RiskEngine.divUpd
              (RiskEngine.initRiskUpdate RiskEngine.divLevels))).1).1).exit_percentage
      = 33 ∧
    (RiskEngine.update_position RiskEngine.defaultConfig
        MomentumTrailingTP.engineMomCfg RiskEngine.divLevels RiskEngine.divUpd
        (some RiskEngine.divBars) none).1.exit_reason =
      some (ExitCause.targetHit "T1") ∧
    (RiskEngine.update_position RiskEngine.defaultConfig
        MomentumTrailingTP.engineMomCfg RiskEngine.divLevels RiskEngine.divUpd
        (some RiskEngine.divBars) none).1.exit_percentage = 50 ∧
    (RiskEngine.update_position RiskEngine.defaultConfig
        MomentumTrailingTP.engineMomCfg RiskEngine.divLevels RiskEngine.divUpd
        (some RiskEngine.divBars) none).1.guarding_broken = false := by
  simp [RiskEngine.update_position, RiskEngine.divLevels, RiskEngine.divUpd,
    RiskEngine.divBars, RiskEngine.divClozes, RiskEngine.step_current_r,
    RiskEngine.initRiskUpdate, RiskEngine.step_breakeven, RiskEngine.step_momentum,
    RiskEngine.step_divergence, RiskEngine.step_targets, RiskEngine.step_guarding,
    RiskEngine.step_trail, RiskEngine.step_structure, RiskEngine.targetScan,
    RiskEngine.detect_divergence, RiskEngine.breakevenUsed,
    RiskEngine.calculate_breakeven_price, RiskEngine.is_better_stop,
    RiskEngine.trail_stop, RiskEngine.defaultConfig,
    MomentumTrailingTP.update, MomentumTrailingTP.engineMomCfg,
    MomentumTrailingTP.calculate_slope, MomentumTrailingTP.calculate_trail_buffer,
    MomentumTrailingTP.calculate_trail_level, MomentumState.init,
    takeLast, listMin, listMax, meanQ, rangeQ, polyfit1, max_def, min_def]
  norm_num [RiskEngine.targetScan]

/-- C2, amended: per call, exactly one exit reason/percentage field is
reported (the result carries a single reason/percentage pair). A momentum
exit set in step 3 is never overwritten except by a guarding-line breach; a
target-hit exit set in step 5 is never overwritten except by a guarding-line
breach; the structure-health step never overwrites a set signal. A
divergence exit set in step 4 can, however, also be overwritten by the
fixed-target check of step 5 (which is guarded only on momentum inactivity,
not on an already-set signal), reporting a target-hit reason instead. -/
theorem c2_exit_precedence (cfg : RiskEngine.Config) (m : MomentumTrailingTP.Cfg)
    (levels : RiskEngine.RiskLevels) (upd : RiskEngine.PositionUpdate)
    (ohlcv : Option (List Candle)) (mstate : Option MomentumState)
    (r1 : RiskEngine.RiskUpdate)
    (p2 : RiskEngine.RiskUpdate × RiskEngine.RiskLevels)
    (p3 : RiskEngine.RiskUpdate × Option MomentumState)
    (r4 r5 r6 r7 r8 : RiskEngine.RiskUpdate)
    (h1 : r1 = RiskEngine.step_current_r levels upd
      (RiskEngine.initRiskUpdate levels))
    (h2 : p2 = RiskEngine.step_breakeven cfg levels r1)
    (h3 : p3 = RiskEngine.step_momentum cfg m p2.2 upd ohlcv mstate p2.1)
    (h4 : r4 = RiskEngine.step_divergence cfg p2.2 ohlcv p3.2 p3.1)
    (h5 : r5 = RiskEngine.step_targets p2.2 upd p3.2 r4)
    (h6 : r6 = RiskEngine.step_guarding cfg p2.2 upd r5)
    (h7 : r7 = RiskEngine.step_trail p2.2 upd r6)
    (h8 : r8 = RiskEngine.step_structure p2.2 upd r7) :
    (RiskEngine.update_position cfg m levels upd ohlcv mstate).1 = r8 ∧
    (p3.1.exit_signal = true →
      r8.guarding_broken = true ∨
      (r8.exit_reason = p3.1.exit_reason ∧
       r8.exit_percentage = p3.1.exit_percentage)) ∧
    (r4.exit_signal = true →
      r8.guarding_broken = true ∨
      (∃ t, r8.exit_reason = some (ExitCause.targetHit t)) ∨
      (r8.exit_reason = r4.exit_reason ∧ r8.exit_percentage = r4.exit_percentage)) ∧
    (r5.exit_signal = true →
      r8.guarding_broken = true ∨
      (r8.exit_reason = r5.exit_reason ∧ r8.exit_percentage = r5.exit_percentage)) ∧
    (r7.exit_signal = true →
      r8.exit_reason = r7.exit_reason ∧ r8.exit_percentage = r7.exit_percentage) := by
  refine ⟨?_, ?_, ?_, ?_, ?_⟩
  · rw [h8, h7, h6, h5, h4, h3, h2, h1]
    rfl
  · -- momentum signal survives except guarding breach
    intro hm
    have hp2sig : p2.1.exit_signal = false := by
      rw [h2, (RiskEngine.step_breakeven_frame cfg levels r1).1, h1,
        (RiskEngine.step_current_r_frame levels upd _).1,
        (RiskEngine.initRiskUpdate_fields levels).1]
    have hcases := RiskEngine.step_momentum_exit_cases cfg m p2.2 upd ohlcv
      mstate p2.1
    rw [← h3] at hcases
    rcases hcases with ⟨hs, -, -⟩ | ⟨-, hre, hpc, s2, hms, hact⟩
    · rw [hs, hp2sig] at hm
      exact absurd hm (by simp)
    · have hdiv := RiskEngine.step_divergence_active cfg p2.2 ohlcv s2 p3.1 hact
      rw [← hms, ← h4] at hdiv
      have htar := RiskEngine.step_targets_active p2.2 upd s2 r4 hact
      rw [← hms, ← h5] at htar
      have h5sig : r5.exit_signal = true := by rw [htar, hdiv.1, hm]
      have htail := exit_tail_cases cfg p2.2 upd r5 h5sig
      rw [← h6, ← h7, ← h8] at htail
      rcases htail with hgb | ⟨e1, e2, -⟩
      · exact Or.inl hgb
      · exact Or.inr ⟨by rw [e1, htar, hdiv.2.1], by rw [e2, htar, hdiv.2.2]⟩
  · -- divergence signal survives except guarding or target overwrite
    intro hd
    have hcases := RiskEngine.step_targets_cases p2.2 upd p3.2 r4
    rw [← h5] at hcases
    rcases hcases with heq | ⟨t, -, heq⟩
    · have h5sig : r5.exit_signal = true := by rw [heq]; exact hd
      have htail := exit_tail_cases cfg p2.2 upd r5 h5sig
      rw [← h6, ← h7, ← h8] at htail
      rcases htail with hgb | ⟨e1, e2, -⟩
      · exact Or.inl hgb
      · rw [heq] at e1 e2
        exact Or.inr (Or.inr ⟨e1, e2⟩)
    · have h5sig : r5.exit_signal = true := by rw [heq]
      have htail := exit_tail_cases cfg p2.2 upd r5 h5sig
      rw [← h6, ← h7, ← h8] at htail
      rcases htail with hgb | ⟨e1, e2, -⟩
      · exact Or.inl hgb
      · refine Or.inr (Or.inl ⟨t.reason, ?_⟩)
        rw [e1, heq]
  · -- target signal survives except guarding breach
    intro ht
    have htail := exit_tail_cases cfg p2.2 upd r5 ht
    rw [← h6, ← h7, ← h8] at htail
    rcases htail with hgb | ⟨e1, e2, -⟩
    · exact Or.inl hgb
    · exact Or.inr ⟨e1, e2⟩
  · -- structure health never overwrites
    intro h7sig
    have hcases := RiskEngine.step_structure_cases p2.2 upd r7
    rw [← h8] at hcases
    obtain ⟨-, -, -, spres, -⟩ := hcases
    obtain ⟨-, e2, e3⟩ := spres h7sig
    exact ⟨e2, e3⟩

/-- C2, witness: the amended precedence theorem applied at the concrete
divergence scenario, with each stage equation discharged by `rfl`. -/
theorem c2_exit_precedence_witness :
    (let r1 := RiskEngine.step_current_r RiskEngine.divLevels RiskEngine.divUpd
        (RiskEngine.initRiskUpdate RiskEngine.divLevels)
     let p2 := RiskEngine.step_breakeven RiskEngine.defaultConfig
        RiskEngine.divLevels r1
     let p3 := RiskEngine.step_momentum RiskEngine.defaultConfig
        MomentumTrailingTP.engineMomCfg p2.2 RiskEngine.divUpd none none p2.1
     let r4 := RiskEngine.step_divergence RiskEngine.defaultConfig p2.2 none
        p3.2 p3.1
     let r5 := RiskEngine.step_targets p2.2 RiskEngine.divUpd p3.2 r4
     let r6 := RiskEngine.step_guarding RiskEngine.defaultConfig p2.2
        RiskEngine.divUpd r5
     let r7 := RiskEngine.step_trail p2.2 RiskEngine.divUpd r6
     let r8 := RiskEngine.step_structure p2.2 RiskEngine.divUpd r7
     (RiskEngine.update_position RiskEngine.defaultConfig
        MomentumTrailingTP.engineMomCfg RiskEngine.divLevels RiskEngine.divUpd
        none none).1 = r8) := by
  exact (c2_exit_precedence _ _ _ _ _ _ _ _ _ _ _ _ _ _
    rfl rfl rfl rfl rfl rfl rfl rfl).1

/-! Claim C3: every stop on the loss side of entry, every target on the
profit side. -/

/-- Every target produced by the structural-target loop takes its price from
one of the candidate pairs. -/
theorem structTargetsLong_mem (cfg : CoreEngine.Config) (entry dist : ℚ) :
    ∀ (i : ℕ) (l : List (ℚ × ℚ)) (t : CoreEngine.TargetLevel),
      t ∈ CoreEngine.structTargetsLong cfg entry dist i l →
      ∃ rc ∈ l, t.price = rc.1 := by
  intro i l
  induction l generalizing i with
  | nil => intro t ht; simp [CoreEngine.structTargetsLong] at ht
  | cons hd tl ih =>
      obtain ⟨rp, cf⟩ := hd
      intro t ht
      unfold CoreEngine.structTargetsLong at ht
      rw [List.mem_append] at ht
      rcases ht with h | h
      · split at h
        · rw [List.mem_singleton] at h
          exact ⟨(rp, cf), by simp, by rw [h]⟩
        · simp at h
      · obtain ⟨rc, hrc, hp⟩ := ih (i + 1) t h
        exact ⟨rc, by simp [hrc], hp⟩

/-- Mirror of `structTargetsLong_mem`. -/
theorem structTargetsShort_mem (cfg : CoreEngine.Config) (entry dist : ℚ) :
    ∀ (i : ℕ) (l : List (ℚ × ℚ)) (t : CoreEngine.TargetLevel),
      t ∈ CoreEngine.structTargetsShort cfg entry dist i l →
      ∃ rc ∈ l, t.price = rc.1 := by
  intro i l
  induction l generalizing i with
  | nil => intro t ht; simp [CoreEngine.structTargetsShort] at ht
  | cons hd tl ih =>
      obtain ⟨rp, cf⟩ := hd
      intro t ht
      unfold CoreEngine.structTargetsShort at ht
      rw [List.mem_append] at ht
      rcases ht with h | h
      · split at h
        · rw [List.mem_singleton] at h
          exact ⟨(rp, cf), by simp, by rw [h]⟩
        · simp at h
      · obtain ⟨rc, hrc, hp⟩ := ih (i + 1) t h
        exact ⟨rc, by simp [hrc], hp⟩

/-- Helper for C3: every stop of engine.py's long ladder is strictly below
entry. -/
theorem coreStopsLongBelow (ecfg : CoreEngine.Config) (entry atr : ℚ)
    (supports resistances : List (ℚ × ℚ)) (he : 0 < entry) (ha : 0 < atr)
    (hm : 0 < ecfg.atr_stop_multiplier) (hp : 0 < ecfg.max_stop_pct) :
    ∀ s ∈ CoreEngine.calculate_stops ecfg entry .long supports resistances atr,
      s.price < entry := by
  intro s hs
  rcases supports with _ | ⟨⟨sp, cf⟩, rest⟩ <;>
    simp only [CoreEngine.calculate_stops] at hs <;>
    repeat' split at hs
  all_goals fin_cases hs <;> simp only <;> nlinarith

/-- Helper for C3: every stop of engine.py's short ladder is strictly above
entry. -/
theorem coreStopsShortAbove (ecfg : CoreEngine.Config) (entry atr : ℚ)
    (supports resistances : List (ℚ × ℚ)) (he : 0 < entry) (ha : 0 < atr)
    (hm : 0 < ecfg.atr_stop_multiplier) (hp : 0 < ecfg.max_stop_pct) :
    ∀ s ∈ CoreEngine.calculate_stops ecfg entry .short supports resistances atr,
      entry < s.price := by
  intro s hs
  rcases resistances with _ | ⟨⟨rp, cf⟩, rest⟩ <;>
    simp only [CoreEngine.calculate_stops] at hs <;>
    repeat' split at hs
  all_goals fin_cases hs <;> simp only <;> nlinarith

/-- Helper for C3: every stop of risk_engine.py's long ladder is strictly
below entry. -/
theorem reStopsLongBelow (rcfg : RiskEngine.Config) (entry atr : ℚ)
    (best_support best_resistance : Option (ℚ × ℚ)) (he : 0 < entry)
    (ha : 0 < atr) (hm : 0 < rcfg.atr_stop_multiplier)
    (hp : 0 < rcfg.max_stop_pct) :
    ∀ s ∈ RiskEngine.calculate_stops rcfg entry .long best_support
        best_resistance atr, s.price < entry := by
  intro s hs
  rcases best_support with _ | ⟨sp, cf⟩ <;>
    simp only [RiskEngine.calculate_stops] at hs <;>
    repeat' split at hs
  all_goals fin_cases hs <;> simp only <;> nlinarith

/-- Helper for C3: every stop of risk_engine.py's short ladder is strictly
above entry. -/
theorem reStopsShortAbove (rcfg : RiskEngine.Config) (entry atr : ℚ)
    (best_support best_resistance : Option (ℚ × ℚ)) (he : 0 < entry)
    (ha : 0 < atr) (hm : 0 < rcfg.atr_stop_multiplier)
    (hp : 0 < rcfg.max_stop_pct) :
    ∀ s ∈ RiskEngine.calculate_stops rcfg entry .short best_support
        best_resistance atr, entry < s.price := by
  intro s hs
  rcases best_resistance with _ | ⟨rp, cf⟩ <;>
    simp only [RiskEngine.calculate_stops] at hs <;>
    repeat' split at hs
  all_goals fin_cases hs <;> simp only <;> nlinarith

/-- Helper for C3: every target of engine.py's long ladder is strictly above
entry. -/
theorem coreTargetsLongAbove (ecfg : CoreEngine.Config) (entry atr : ℚ)
    (supports resistances : List (ℚ × ℚ)) (he : 0 < entry) (ha : 0 < atr)
    (hm : 0 < ecfg.atr_stop_multiplier) :
    ∀ t ∈ CoreEngine.calculate_targets ecfg entry .long supports resistances atr,
      entry < t.price := by
  intro t ht
  simp only [CoreEngine.calculate_targets] at ht
  split at ht
  · -- fallback R-multiple ladder
    fin_cases ht <;> simp only [CoreEngine.extensionTarget] <;> nlinarith
  · obtain ⟨rc, hrc, hpr⟩ := structTargetsLong_mem ecfg entry
      (atr * ecfg.atr_stop_multiplier) 0 _ t ht
    have hmem : rc ∈ List.filter (fun rc => decide (rc.1 > entry)) resistances := by
      have h1 : rc ∈ List.insertionSort (fun a b : ℚ × ℚ => a.1 ≤ b.1)
          (resistances.filter (fun rc => decide (rc.1 > entry))) :=
        List.mem_of_mem_take hrc
      exact (List.perm_insertionSort _ _).mem_iff.mp h1
    have := (List.mem_filter.mp hmem).2
    rw [hpr]
    simpa using this

/-- Helper for C3: every target of engine.py's short ladder is strictly below
entry. -/
theorem coreTargetsShortBelow (ecfg : CoreEngine.Config) (entry atr : ℚ)
    (supports resistances : List (ℚ × ℚ)) (he : 0 < entry) (ha : 0 < atr)
    (hm : 0 < ecfg.atr_stop_multiplier) :
    ∀ t ∈ CoreEngine.calculate_targets ecfg entry .short supports resistances atr,
      t.price < entry := by
  intro t ht
  simp only [CoreEngine.calculate_targets] at ht
  split at ht
  · fin_cases ht <;> simp only [CoreEngine.extensionTarget] <;> nlinarith
  · obtain ⟨rc, hrc, hpr⟩ := structTargetsShort_mem ecfg entry
      (atr * ecfg.atr_stop_multiplier) 0 _ t ht
    have hmem : rc ∈ List.filter (fun sc => decide (sc.1 < entry)) supports := by
      have h1 : rc ∈ List.insertionSort (fun a b : ℚ × ℚ => b.1 ≤ a.1)
          (supports.filter (fun sc => decide (sc.1 < entry))) :=
        List.mem_of_mem_take hrc
      exact (List.perm_insertionSort _ _).mem_iff.mp h1
    have := (List.mem_filter.mp hmem).2
    rw [hpr]
    simpa using this

/-- C3: for every setup with strictly positive ATR (and positive entry price
and positive stop-multiplier / max-stop configuration), every stop in the
computed ladder is strictly below the entry price for longs and strictly
above it for shorts, and every computed target is strictly above entry for
longs and strictly below it for shorts — for engine.py's `_calculate_stops`
and `_calculate_targets` and risk_engine.py's `_calculate_stops`. -/
theorem c3_stops_targets_sides (ecfg : CoreEngine.Config)
    (rcfg : RiskEngine.Config) (entry atr : ℚ)
    (supports resistances : List (ℚ × ℚ))
    (best_support best_resistance : Option (ℚ × ℚ))
    (he : 0 < entry) (ha : 0 < atr)
    (hm1 : 0 < ecfg.atr_stop_multiplier) (hp1 : 0 < ecfg.max_stop_pct)
    (hm2 : 0 < rcfg.atr_stop_multiplier) (hp2 : 0 < rcfg.max_stop_pct) :
    (∀ s ∈ CoreEngine.calculate_stops ecfg entry .long supports resistances atr,
      s.price < entry) ∧
    (∀ s ∈ CoreEngine.calculate_stops ecfg entry .short supports resistances atr,
      entry < s.price) ∧
    (∀ t ∈ CoreEngine.calculate_targets ecfg entry .long supports resistances atr,
      entry < t.price) ∧
    (∀ t ∈ CoreEngine.calculate_targets ecfg entry .short supports resistances atr,
      t.price < entry) ∧
    (∀ s ∈ RiskEngine.calculate_stops rcfg entry .long best_support
        best_resistance atr, s.price < entry) ∧
    (∀ s ∈ RiskEngine.calculate_stops rcfg entry .short best_support
        best_resistance atr, entry < s.price) :=
  ⟨coreStopsLongBelow ecfg entry atr supports resistances he ha hm1 hp1,
   coreStopsShortAbove ecfg entry atr supports resistances he ha hm1 hp1,
   coreTargetsLongAbove ecfg entry atr supports resistances he ha hm1,
   coreTargetsShortBelow ecfg entry atr supports resistances he ha hm1,
   reStopsLongBelow rcfg entry atr best_support best_resistance he ha hm2 hp2,
   reStopsShortAbove rcfg entry atr best_support best_resistance he ha hm2 hp2⟩

/-- C3, witness: the ladder-side theorem applied with default configurations
at entry 95000, ATR 600, one support at 93200 and one resistance at 97800. -/
theorem c3_stops_targets_sides_witness :
    List.Forall (fun s => s.price < 95000)
      (CoreEngine.calculate_stops CoreEngine.defaultConfig 95000 .long
        [(93200, 0.8)] [(97800, 0.8)] 600) := by
  refine List.forall_iff_forall_mem.mpr ?_
  exact (c3_stops_targets_sides CoreEngine.defaultConfig RiskEngine.defaultConfig
    95000 600 [(93200, 0.8)] [(97800, 0.8)] (some (93200, 8)) (some (97800, 8))
    (by norm_num) (by norm_num)
    (by norm_num [CoreEngine.defaultConfig])
    (by norm_num [CoreEngine.defaultConfig])
    (by norm_num [RiskEngine.defaultConfig])
    (by norm_num [RiskEngine.defaultConfig])).1

/-! Claim C4: the momentum trailing level ratchets and the exit fires exactly
on an adverse cross. -/

/-- C4: once the momentum trailing take-profit is active, an update never
moves the trailing level against the trade (never down for long, never up
for short), and the update reports an exit exactly when the current price is
strictly beyond the updated trailing level in the adverse direction
(strictly below it for long, strictly above it for short). -/
theorem c4_momentum_ratchet_exit (m : MomentumTrailingTP.Cfg) (s : MomentumState)
    (current_price current_r : ℚ) (direction : Dir) (recent_closes : List ℚ)
    (recent_candles : List Candle) (h : s.active = true) :
    (direction = .long →
      s.trailing_level ≤ (MomentumTrailingTP.update m s current_price current_r
          direction recent_closes recent_candles).1.trailing_level ∧
      ((MomentumTrailingTP.update m s current_price current_r direction
          recent_closes recent_candles).2 = true ↔
        current_price < (MomentumTrailingTP.update m s current_price current_r
          direction recent_closes recent_candles).1.trailing_level)) ∧
    (direction = .short →
      (MomentumTrailingTP.update m s current_price current_r direction
          recent_closes recent_candles).1.trailing_level ≤ s.trailing_level ∧
      ((MomentumTrailingTP.update m s current_price current_r direction
          recent_closes recent_candles).2 = true ↔
        (MomentumTrailingTP.update m s current_price current_r direction
          recent_closes recent_candles).1.trailing_level < current_price)) := by
  unfold MomentumTrailingTP.update
  rw [if_neg (by simp [h])]
  constructor
  · rintro rfl
    rcases hgl : recent_candles.getLast? with _ | last <;> simp only [hgl]
    all_goals
      constructor
      · rw [apply_ite (fun p : MomentumState × Bool => p.1.trailing_level),
          ite_self]
        dsimp only
        split <;> linarith
      · rw [apply_ite (fun p : MomentumState × Bool => p.2),
          apply_ite (fun p : MomentumState × Bool => p.1.trailing_level),
          ite_self]
        dsimp only
        simp
  · rintro rfl
    rcases hgl : recent_candles.getLast? with _ | last <;> simp only [hgl]
    all_goals
      constructor
      · rw [apply_ite (fun p : MomentumState × Bool => p.1.trailing_level),
          ite_self]
        dsimp only
        split <;> linarith
      · rw [apply_ite (fun p : MomentumState × Bool => p.2),
          apply_ite (fun p : MomentumState × Bool => p.1.trailing_level),
          ite_self]
        dsimp only
        simp

/-- C4, witness: an active state trailing at 50 with price 49 exits (the
fresh candidate trail 48.265 does not ratchet, and 49 < 50). -/
theorem c4_momentum_ratchet_exit_witness :
    (MomentumTrailingTP.update MomentumTrailingTP.engineMomCfg
      { MomentumState.init with active := true, trailing_level := 50 }
      49 2 .long [] []).2 = true := by
  have hiff := ((c4_momentum_ratchet_exit MomentumTrailingTP.engineMomCfg
    { MomentumState.init with active := true, trailing_level := 50 }
    49 2 .long [] [] rfl).1 rfl).2
  rw [hiff]
  simp [MomentumTrailingTP.update, MomentumTrailingTP.engineMomCfg,
    MomentumTrailingTP.calculate_slope, MomentumTrailingTP.calculate_trail_buffer,
    MomentumTrailingTP.calculate_trail_level, MomentumState.init,
    takeLast, listMin, listMax, meanQ, rangeQ, polyfit1, max_def, min_def]
  norm_num

/-! Claim C6: guarding-line slope clamping. -/

/-- C6, counterexample: `GuardingLine.calculate_initial_line`
(guarding_line.py) on a long with five strictly falling prices produces a
slope of exactly 0 — a flat line, with magnitude below any positive minimum
percentage of the entry price — because that implementation only clamps the
sign of the regression slope. -/
theorem c6_slope_counterexample :
    (GuardingLine.calculate_initial_line ⟨10, 0.3⟩ 100 Dir.long
      [14, 13, 12, 11, 10] 20).slope = 0 := by
  simp [GuardingLine.calculate_initial_line, find_swing_points, polyfit1,
    rangeQ, listMin, listMax, takeLast, max_def, min_def]
  norm_num [List.filterMap, List.range, List.range.loop]

/-- C6, amended: the clamp described by the claim is implemented by
`GuardingLineManager.calculate_initial_line` (risk_engine.py): for a positive
entry price and at least 5 price points the slope is at least 0.05 percent
and at most 0.5 percent of the entry price per bar in the direction of the
trade (positive for long, negative for short), and in particular never zero.
`GuardingLine.calculate_initial_line` (guarding_line.py) enforces only the
sign: non-negative for long and non-positive for short, with no minimum or
maximum magnitude. -/
theorem c6_slope_clamped (g : GuardingLineManager.Cfg) (entry_price : ℚ)
    (direction : Dir) (price_data : List ℚ) (lookback : ℕ)
    (he : 0 < entry_price) (hlen : 5 ≤ price_data.length) :
    (direction = .long →
      entry_price * (0.05 / 100) ≤
        (GuardingLineManager.calculate_initial_line g entry_price direction
          price_data lookback).slope ∧
      (GuardingLineManager.calculate_initial_line g entry_price direction
          price_data lookback).slope ≤ entry_price * (0.5 / 100)) ∧
    (direction = .short →
      -(entry_price * (0.5 / 100)) ≤
        (GuardingLineManager.calculate_initial_line g entry_price direction
          price_data lookback).slope ∧
      (GuardingLineManager.calculate_initial_line g entry_price direction
          price_data lookback).slope ≤ -(entry_price * (0.05 / 100))) ∧
    (GuardingLineManager.calculate_initial_line g entry_price direction
        price_data lookback).slope ≠ 0 ∧
    (∀ (g2 : GuardingLine.Cfg) (e2 : ℚ) (pd2 : List ℚ) (lb2 : ℕ),
      0 ≤ (GuardingLine.calculate_initial_line g2 e2 .long pd2 lb2).slope ∧
      (GuardingLine.calculate_initial_line g2 e2 .short pd2 lb2).slope ≤ 0) := by
  have hmin : (0 : ℚ) < entry_price * (0.05 / 100) := by nlinarith
  have hminmax : entry_price * (0.05 / 100) ≤ entry_price * (0.5 / 100) := by
    nlinarith
  have hmax : (0 : ℚ) < entry_price * (0.5 / 100) := by nlinarith
  have hnot : ¬ price_data.length < 5 := by omega
  have hslope :
      (GuardingLineManager.calculate_initial_line g entry_price direction
        price_data lookback).slope =
      (match direction with
       | .long =>
          max (-(entry_price * (0.5 / 100)))
            (min (entry_price * (0.5 / 100))
              (max (max 0 ((if 2 ≤ (find_swing_points
                  (price_data.take (min lookback price_data.length))
                  direction).length then
                GuardingLineManager.calculate_dynamic_slope
                  (find_swing_points
                    (price_data.take (min lookback price_data.length)) direction)
                  entry_price
              else (polyfit1
                  (rangeQ (price_data.take (min lookback price_data.length)).length)
                  (price_data.take (min lookback price_data.length))).1)))
                (entry_price * (0.05 / 100))))
       | .short =>
          max (-(entry_price * (0.5 / 100)))
            (min (entry_price * (0.5 / 100))
              (min (min 0 ((if 2 ≤ (find_swing_points
                  (price_data.take (min lookback price_data.length))
                  direction).length then
                GuardingLineManager.calculate_dynamic_slope
                  (find_swing_points
                    (price_data.take (min lookback price_data.length)) direction)
                  entry_price
              else (polyfit1
                  (rangeQ (price_data.take (min lookback price_data.length)).length)
                  (price_data.take (min lookback price_data.length))).1)))
                (-(entry_price * (0.05 / 100))))) ) := by
    unfold GuardingLineManager.calculate_initial_line
    rw [if_neg hnot]
    rcases direction <;> simp
  rcases direction with _ | _
  · set raw := (if 2 ≤ (find_swing_points
        (price_data.take (min lookback price_data.length)) Dir.long).length then
      GuardingLineManager.calculate_dynamic_slope
        (find_swing_points
          (price_data.take (min lookback price_data.length)) Dir.long) entry_price
      else (polyfit1
        (rangeQ (price_data.take (min lookback price_data.length)).length)
        (price_data.take (min lookback price_data.length))).1) with hraw
    have hlo : entry_price * (0.05 / 100) ≤
        max (-(entry_price * (0.5 / 100)))
          (min (entry_price * (0.5 / 100))
            (max (max 0 raw) (entry_price * (0.05 / 100)))) := by
      refine le_max_of_le_right ?_
      refine le_min hminmax (le_max_right _ _)
    have hhi : max (-(entry_price * (0.5 / 100)))
        (min (entry_price * (0.5 / 100))
          (max (max 0 raw) (entry_price * (0.05 / 100)))) ≤
        entry_price * (0.5 / 100) := by
      refine max_le (by linarith) (min_le_left _ _)
    have harm : (GuardingLineManager.calculate_initial_line g entry_price
        Dir.long price_data lookback).slope =
        max (-(entry_price * (0.5 / 100)))
          (min (entry_price * (0.5 / 100))
            (max (max 0 raw) (entry_price * (0.05 / 100)))) := hslope
    refine ⟨fun _ => ?_, fun hc => absurd hc (by decide), ?_, ?_⟩
    · rw [harm]
      exact ⟨hlo, hhi⟩
    · rw [harm]
      intro hzero
      rw [hzero] at hlo
      linarith
    · intro g2 e2 pd2 lb2
      constructor
      · unfold GuardingLine.calculate_initial_line
        split
        · simp
        · simp [le_max_iff]
      · unfold GuardingLine.calculate_initial_line
        split
        · simp
        · simp [min_le_iff]
  · set raw := (if 2 ≤ (find_swing_points
        (price_data.take (min lookback price_data.length)) Dir.short).length then
      GuardingLineManager.calculate_dynamic_slope
        (find_swing_points
          (price_data.take (min lookback price_data.length)) Dir.short) entry_price
      else (polyfit1
        (rangeQ (price_data.take (min lookback price_data.length)).length)
        (price_data.take (min lookback price_data.length))).1) with hraw
    have hin : min (min 0 raw) (-(entry_price * (0.05 / 100))) ≤
        -(entry_price * (0.05 / 100)) := min_le_right _ _
    have hlo : -(entry_price * (0.5 / 100)) ≤
        max (-(entry_price * (0.5 / 100)))
          (min (entry_price * (0.5 / 100))
            (min (min 0 raw) (-(entry_price * (0.05 / 100))))) :=
      le_max_left _ _
    have hhi : max (-(entry_price * (0.5 / 100)))
        (min (entry_price * (0.5 / 100))
          (min (min 0 raw) (-(entry_price * (0.05 / 100))))) ≤
        -(entry_price * (0.05 / 100)) := by
      refine max_le (by linarith) ?_
      refine le_trans (min_le_right _ _) hin
    have harm : (GuardingLineManager.calculate_initial_line g entry_price
        Dir.short price_data lookback).slope =
        max (-(entry_price * (0.5 / 100)))
          (min (entry_price * (0.5 / 100))
            (min (min 0 raw) (-(entry_price * (0.05 / 100))))) := hslope
    refine ⟨fun hc => absurd hc (by decide), fun _ => ?_, ?_, ?_⟩
    · rw [harm]
      exact ⟨hlo, hhi⟩
    · rw [harm]
      intro hzero
      rw [hzero] at hhi
      linarith
    · intro g2 e2 pd2 lb2
      constructor
      · unfold GuardingLine.calculate_initial_line
        split
        · simp
        · simp [le_max_iff]
      · unfold GuardingLine.calculate_initial_line
        split
        · simp
        · simp [min_le_iff]

/-- C6, witness: the manager clamp theorem at entry 100 on five rising
prices. -/
theorem c6_slope_clamped_witness :
    (100 : ℚ) * (0.05 / 100) ≤
      (GuardingLineManager.calculate_initial_line ⟨10, 0.3⟩ 100 Dir.long
        [1, 2, 3, 4, 5] 20).slope ∧
    (GuardingLineManager.calculate_initial_line ⟨10, 0.3⟩ 100 Dir.long
        [1, 2, 3, 4, 5] 20).slope ≤ (100 : ℚ) * (0.5 / 100) := by
  exact (c6_slope_clamped ⟨10, 0.3⟩ 100 Dir.long [1, 2, 3, 4, 5] 20
    (by norm_num) (by simp)).1 rfl

/-! Claim C7: guarding-line level before and after activation. -/

/-- C7, counterexample: `GuardingLine.calculate_initial_line` on a short with
five rising prices yields slope 0 and intercept 10.03; before the activation
bar (bar 5 of 10), `get_current_level` returns 10.03 × 0.9 = 9.027 — on the
breaching side for a short — so `check_break` at price 10 (inside the data
range) reports a break before activation, contradicting the claim. -/
theorem c7_preactivation_counterexample :
    5 < (GuardingLine.calculate_initial_line ⟨10, 0.3⟩ 100 Dir.short
        [10, 11, 12, 13, 14] 20).activation_bar ∧
    check_break 10
      (get_current_level (GuardingLine.calculate_initial_line ⟨10, 0.3⟩ 100
        Dir.short [10, 11, 12, 13, 14] 20) 5) Dir.short = true := by
  refine ⟨?_, ?_⟩
  · simp [GuardingLine.calculate_initial_line]
  · simp [GuardingLine.calculate_initial_line, get_current_level, check_break,
      find_swing_points, polyfit1, rangeQ, takeLast, max_def, min_def]
    norm_num [List.filterMap, List.range, List.range.loop]

/-- C7, amended: before the activation bar `get_current_level` returns
intercept × 0.9 when slope ≥ 0 and intercept × 1.1 when slope < 0; when the
intercept is positive and the slope sign strictly matches the direction
(slope ≥ 0 for long, slope < 0 for short) that level lies strictly on the
far, non-breaching side of the line's start, and `check_break` reports no
break for any price that has not itself crossed that far level (within 10
percent of the intercept). At or after activation the level is
intercept + slope × (bars_since_entry − activation_bar). -/
theorem c7_guarding_level (p : GuardParams) (bars : ℕ) :
    (bars < p.activation_bar →
      get_current_level p bars =
        (if 0 ≤ p.slope then p.intercept * 0.9 else p.intercept * 1.1)) ∧
    (p.activation_bar ≤ bars →
      get_current_level p bars =
        p.intercept + p.slope * ((bars - p.activation_bar : ℕ) : ℚ)) ∧
    (bars < p.activation_bar → 0 < p.intercept →
      (0 ≤ p.slope →
        get_current_level p bars < p.intercept ∧
        ∀ price : ℚ, get_current_level p bars ≤ price →
          check_break price (get_current_level p bars) Dir.long = false) ∧
      (p.slope < 0 →
        p.intercept < get_current_level p bars ∧
        ∀ price : ℚ, price ≤ get_current_level p bars →
          check_break price (get_current_level p bars) Dir.short = false)) := by
  refine ⟨?_, ?_, ?_⟩
  · intro hlt
    unfold get_current_level
    rw [if_pos hlt]
  · intro hge
    unfold get_current_level
    rw [if_neg (by omega)]
  · intro hlt hpos
    constructor
    · intro hs
      have hlevel : get_current_level p bars = p.intercept * 0.9 := by
        unfold get_current_level
        rw [if_pos hlt, if_pos hs]
      refine ⟨by rw [hlevel]; nlinarith, ?_⟩
      intro price hpr
      rw [hlevel] at hpr ⊢
      unfold check_break
      simp only [decide_eq_false_iff_not, not_lt]
      exact hpr
    · intro hs
      have hlevel : get_current_level p bars = p.intercept * 1.1 := by
        unfold get_current_level
        rw [if_pos hlt, if_neg (by linarith)]
      refine ⟨by rw [hlevel]; nlinarith, ?_⟩
      intro price hpr
      rw [hlevel] at hpr ⊢
      unfold check_break
      simp only [decide_eq_false_iff_not, not_lt]
      exact hpr

/-! Claim C8: unrecognized exit-reason strings are coerced to manual_exit. -/

/-- C8: when `execute_exit` receives a nonempty exit-reason string that is
not a member of the closed exit-reason enumeration, the resolution silently
coerces it to `manual_exit` (the `ValueError` of the enum constructor is
caught), and resolution is a total function — the unrecognized string never
makes the operation fail. -/
theorem c8_unknown_reason_coerced (s : String) (reason : Option String)
    (hne : s ≠ "") (hnotin : s ∉ Api.exitReasonStrings) :
    Api.resolve_exit_reason (some s) reason = Api.ExitReason.manual_exit := by
  have h1 : s ≠ "target_hit" := fun h => hnotin (by simp [Api.exitReasonStrings, h])
  have h2 : s ≠ "guarding_line_broken" :=
    fun h => hnotin (by simp [Api.exitReasonStrings, h])
  have h3 : s ≠ "structural_support_broken" :=
    fun h => hnotin (by simp [Api.exitReasonStrings, h])
  have h4 : s ≠ "opposite_mcf_signal" :=
    fun h => hnotin (by simp [Api.exitReasonStrings, h])
  have h5 : s ≠ "momentum_exhaustion" :=
    fun h => hnotin (by simp [Api.exitReasonStrings, h])
  have h6 : s ≠ "volume_climax" := fun h => hnotin (by simp [Api.exitReasonStrings, h])
  have h7 : s ≠ "safety_net_5pct" := fun h => hnotin (by simp [Api.exitReasonStrings, h])
  have h8 : s ≠ "manual_exit" := fun h => hnotin (by simp [Api.exitReasonStrings, h])
  unfold Api.resolve_exit_reason Api.orStr Api.exitReasonFromString
  simp [hne, h1, h2, h3, h4, h5, h6, h7, h8]

/-- C8, witness: the string "not_a_reason" resolves to manual_exit. -/
theorem c8_unknown_reason_coerced_witness :
    Api.resolve_exit_reason (some "not_a_reason") none =
      Api.ExitReason.manual_exit := by
  exact c8_unknown_reason_coerced "not_a_reason" none (by simp)
    (by simp [Api.exitReasonStrings])

/-! Claim C9: the momentum active flag latches, and fixed-target checks stay
suppressed. -/

/-- C9: once a `MomentumState`'s active flag is true, `MomentumTrailingTP.update`
never clears it (also on momentum-exit calls); consequently a call to
`update_position` whose stored state for the key is active stores back an
active state and never reports a fixed-target exit — the suppression holds
until `reset_momentum_state` deletes the entry. -/
theorem c9_momentum_latch (cfg : RiskEngine.Config) (m : MomentumTrailingTP.Cfg)
    (levels : RiskEngine.RiskLevels) (upd : RiskEngine.PositionUpdate)
    (ohlcv : Option (List Candle)) (s : MomentumState) (cp cr : ℚ) (d : Dir)
    (closes : List ℚ) (candles : List Candle) (h : s.active = true) :
    (MomentumTrailingTP.update m s cp cr d closes candles).1.active = true ∧
    (∃ s2, (RiskEngine.update_position cfg m levels upd ohlcv (some s)).2.2 =
        some s2 ∧ s2.active = true) ∧
    (∀ t, (RiskEngine.update_position cfg m levels upd ohlcv
        (some s)).1.exit_reason ≠ some (ExitCause.targetHit t)) := by
  refine ⟨RiskEngine.momentum_update_keeps_active m s cp cr d closes candles h,
    ?_, ?_⟩
  · exact RiskEngine.step_momentum_keeps_active cfg m
      (RiskEngine.step_breakeven cfg levels (RiskEngine.step_current_r levels upd
        (RiskEngine.initRiskUpdate levels))).2 upd ohlcv s
      (RiskEngine.step_breakeven cfg levels (RiskEngine.step_current_r levels upd
        (RiskEngine.initRiskUpdate levels))).1 h
  · intro t hcontra
    simp only [RiskEngine.update_position] at hcontra
    set r1 := RiskEngine.step_current_r levels upd
      (RiskEngine.initRiskUpdate levels) with hr1
    set p2 := RiskEngine.step_breakeven cfg levels r1 with hp2
    set p3 := RiskEngine.step_momentum cfg m p2.2 upd ohlcv (some s) p2.1 with hp3
    set r4 := RiskEngine.step_divergence cfg p2.2 ohlcv p3.2 p3.1 with hr4
    set r5 := RiskEngine.step_targets p2.2 upd p3.2 r4 with hr5
    set r6 := RiskEngine.step_guarding cfg p2.2 upd r5 with hr6
    set r7 := RiskEngine.step_trail p2.2 upd r6 with hr7
    have h1 : r1.exit_reason = none := by
      rw [hr1, (RiskEngine.step_current_r_frame levels upd _).2.1,
        (RiskEngine.initRiskUpdate_fields levels).2.1]
    have h2 : p2.1.exit_reason = none := by
      rw [hp2, (RiskEngine.step_breakeven_frame cfg levels r1).2.1, h1]
    obtain ⟨s2, hms, hact⟩ := RiskEngine.step_momentum_keeps_active cfg m p2.2
      upd ohlcv s p2.1 h
    rw [← hp3] at hms
    have h3 : p3.1.exit_reason = none ∨
        p3.1.exit_reason = some ExitCause.momentumTrail := by
      have hmc := RiskEngine.step_momentum_exit_cases cfg m p2.2 upd ohlcv
        (some s) p2.1
      rw [← hp3] at hmc
      rcases hmc with ⟨-, hre, -⟩ | ⟨-, hre, -, -⟩
      · left; rw [hre, h2]
      · right; exact hre
    have h4 : r4.exit_reason = p3.1.exit_reason ∨
        ∃ dt, r4.exit_reason = some (ExitCause.divergence dt) := by
      have hdc := RiskEngine.step_divergence_exit_cases cfg p2.2 ohlcv p3.2 p3.1
      rw [← hr4] at hdc
      rcases hdc with ⟨-, hre, -⟩ | ⟨-, ⟨dt, hre⟩, -⟩
      · left; exact hre
      · right; exact ⟨dt, hre⟩
    have h5 : r5 = r4 := by
      rw [hr5, hms]
      exact RiskEngine.step_targets_active p2.2 upd s2 r4 hact
    have h6 : r6.exit_reason = r5.exit_reason ∨
        r6.exit_reason = some ExitCause.guardingBroken := by
      have hgc := RiskEngine.step_guarding_cases cfg p2.2 upd r5
      rw [← hr6] at hgc
      rcases hgc.2.2 with ⟨-, hre, -, -⟩ | ⟨-, -, hre, -⟩
      · left; exact hre
      · right; exact hre
    have h7 : r7.exit_reason = r6.exit_reason := by
      rw [hr7]
      exact (RiskEngine.step_trail_frame p2.2 upd r6).2.1
    have h8 : (RiskEngine.step_structure p2.2 upd r7).exit_reason =
          r7.exit_reason ∨
        (RiskEngine.step_structure p2.2 upd r7).exit_reason =
          some ExitCause.structureBroken := by
      rcases (RiskEngine.step_structure_cases p2.2 upd r7).2.2.2.2 with
        ⟨-, hre, -⟩ | ⟨-, hre, -⟩
      · left; exact hre
      · right; exact hre
    rcases h8 with h8 | h8 <;> rw [h8] at hcontra
    · rw [h7] at hcontra
      rcases h6 with h6 | h6 <;> rw [h6] at hcontra
      · rw [h5] at hcontra
        rcases h4 with h4 | ⟨dt, h4⟩ <;> rw [h4] at hcontra
        · rcases h3 with h3 | h3 <;> rw [h3] at hcontra <;> simp at hcontra
        · simp at hcontra
      · simp at hcontra
    · simp at hcontra

/-- C9, witness: the latch theorem applied to an active state. -/
theorem c9_momentum_latch_witness :
    (MomentumTrailingTP.update MomentumTrailingTP.engineMomCfg
      { MomentumState.init with active := true } 100 0 .long []
      []).1.active = true := by
  exact (c9_momentum_latch RiskEngine.defaultConfig MomentumTrailingTP.engineMomCfg
    RiskEngine.divLevels RiskEngine.divUpd none
    { MomentumState.init with active := true } 100 0 .long [] [] rfl).1

/-! Claims C10 and C5: the breakeven move is the only mutation, and it fires
at most once per position. -/

/-- The result's breakeven flag and R-multiple come from the breakeven step
(no later step touches them), and the returned `RiskLevels` is exactly what
the breakeven step produced. -/
theorem update_position_breakeven_spec (cfg : RiskEngine.Config)
    (m : MomentumTrailingTP.Cfg) (levels : RiskEngine.RiskLevels)
    (upd : RiskEngine.PositionUpdate) (ohlcv : Option (List Candle))
    (ms : Option MomentumState) :
    (RiskEngine.update_position cfg m levels upd ohlcv ms).1.moved_to_breakeven =
      (RiskEngine.step_breakeven cfg levels (RiskEngine.step_current_r levels upd
        (RiskEngine.initRiskUpdate levels))).1.moved_to_breakeven ∧
    (RiskEngine.update_position cfg m levels upd ohlcv ms).1.current_r_multiple =
      (RiskEngine.step_breakeven cfg levels (RiskEngine.step_current_r levels upd
        (RiskEngine.initRiskUpdate levels))).1.current_r_multiple ∧
    (RiskEngine.update_position cfg m levels upd ohlcv ms).2.1 =
      (RiskEngine.step_breakeven cfg levels (RiskEngine.step_current_r levels upd
        (RiskEngine.initRiskUpdate levels))).2 := by
  simp only [RiskEngine.update_position]
  set r1 := RiskEngine.step_current_r levels upd
    (RiskEngine.initRiskUpdate levels) with hr1
  set p2 := RiskEngine.step_breakeven cfg levels r1 with hp2
  set p3 := RiskEngine.step_momentum cfg m p2.2 upd ohlcv ms p2.1 with hp3
  set r4 := RiskEngine.step_divergence cfg p2.2 ohlcv p3.2 p3.1 with hr4
  set r5 := RiskEngine.step_targets p2.2 upd p3.2 r4 with hr5
  set r6 := RiskEngine.step_guarding cfg p2.2 upd r5 with hr6
  set r7 := RiskEngine.step_trail p2.2 upd r6 with hr7
  have m3 := RiskEngine.step_momentum_frame cfg m p2.2 upd ohlcv ms p2.1
  rw [← hp3] at m3
  have m4 := RiskEngine.step_divergence_frame cfg p2.2 ohlcv p3.2 p3.1
  rw [← hr4] at m4
  have m5 : r5.moved_to_breakeven = r4.moved_to_breakeven ∧
      r5.current_r_multiple = r4.current_r_multiple := by
    rcases RiskEngine.step_targets_cases p2.2 upd p3.2 r4 with heq | ⟨t, -, heq⟩ <;>
      rw [hr5, heq] <;> simp
  have m6 := RiskEngine.step_guarding_cases cfg p2.2 upd r5
  rw [← hr6] at m6
  have m7 := RiskEngine.step_trail_frame p2.2 upd r6
  rw [← hr7] at m7
  have m8 := RiskEngine.step_structure_cases p2.2 upd r7
  refine ⟨?_, ?_, ?_⟩
  · rw [m8.1, m7.2.2.2.1, m6.1, m5.1, m4.1, m3.1]
  · rw [m8.2.1, m7.2.2.2.2.1, m6.2.1, m5.2, m4.2.1, m3.2.1]
  · first
      | rfl
      | trivial

/-- One `update_position` call either does not move to breakeven and leaves
the `RiskLevels` untouched, or fires with its reported R-multiple at the
trigger and leaves the stored ladder starting at the breakeven price. -/
theorem update_position_moved_cases (cfg : RiskEngine.Config)
    (m : MomentumTrailingTP.Cfg) (levels : RiskEngine.RiskLevels)
    (upd : RiskEngine.PositionUpdate) (ohlcv : Option (List Candle))
    (ms : Option MomentumState) :
    ((RiskEngine.update_position cfg m levels upd ohlcv
        ms).1.moved_to_breakeven = false ∧
      (RiskEngine.update_position cfg m levels upd ohlcv ms).2.1 = levels) ∨
    ((RiskEngine.update_position cfg m levels upd ohlcv
        ms).1.moved_to_breakeven = true ∧
      (RiskEngine.update_position cfg m levels upd ohlcv
        ms).1.current_r_multiple ≥ cfg.breakeven_trigger_r ∧
      RiskEngine.atBreakevenStop cfg
        (RiskEngine.update_position cfg m levels upd ohlcv ms).2.1 ∧
      RiskEngine.breakevenUsed cfg
          (RiskEngine.update_position cfg m levels upd ohlcv ms).2.1 =
        RiskEngine.breakevenUsed cfg levels) := by
  obtain ⟨hmv, hcr, hlev⟩ := update_position_breakeven_spec cfg m levels upd ohlcv ms
  have hr1mv : (RiskEngine.step_current_r levels upd
      (RiskEngine.initRiskUpdate levels)).moved_to_breakeven = false := by
    rw [(RiskEngine.step_current_r_frame levels upd _).2.2.2.1,
      (RiskEngine.initRiskUpdate_fields levels).2.2]
  have hr1cr : (RiskEngine.step_breakeven cfg levels
        (RiskEngine.step_current_r levels upd
          (RiskEngine.initRiskUpdate levels))).1.current_r_multiple =
      (RiskEngine.step_current_r levels upd
        (RiskEngine.initRiskUpdate levels)).current_r_multiple :=
    (RiskEngine.step_breakeven_frame cfg levels _).2.2.2.1
  rcases RiskEngine.step_breakeven_cases cfg levels
      (RiskEngine.step_current_r levels upd (RiskEngine.initRiskUpdate levels))
    with ⟨hlev2, hmv2⟩ | ⟨hmv2, -, htrig, s0, rest, hstops, hlev2⟩
  · left
    refine ⟨by rw [hmv, hmv2, hr1mv], by rw [hlev, hlev2]⟩
  · right
    refine ⟨by rw [hmv, hmv2], ?_, ?_, ?_⟩
    · rw [hcr, hr1cr]
      exact htrig
    · rw [hlev, hlev2]
      unfold RiskEngine.atBreakevenStop
      simp
      rfl
    · rw [hlev, hlev2]
      rfl

/-- Once the ladder already starts at the breakeven price, a call neither
fires the move again nor changes the `RiskLevels`. -/
theorem update_position_blocked (cfg : RiskEngine.Config)
    (m : MomentumTrailingTP.Cfg) (levels : RiskEngine.RiskLevels)
    (upd : RiskEngine.PositionUpdate) (ohlcv : Option (List Candle))
    (ms : Option MomentumState) (h : RiskEngine.atBreakevenStop cfg levels) :
    (RiskEngine.update_position cfg m levels upd ohlcv
      ms).1.moved_to_breakeven = false ∧
    (RiskEngine.update_position cfg m levels upd ohlcv ms).2.1 = levels := by
  obtain ⟨hmv, -, hlev⟩ := update_position_breakeven_spec cfg m levels upd ohlcv ms
  obtain ⟨hlev2, hmv2⟩ := RiskEngine.step_breakeven_blocked cfg levels
    (RiskEngine.step_current_r levels upd (RiskEngine.initRiskUpdate levels)) h
  have hr1mv : (RiskEngine.step_current_r levels upd
      (RiskEngine.initRiskUpdate levels)).moved_to_breakeven = false := by
    rw [(RiskEngine.step_current_r_frame levels upd _).2.2.2.1,
      (RiskEngine.initRiskUpdate_fields levels).2.2]
  exact ⟨by rw [hmv, hmv2, hr1mv], by rw [hlev, hlev2]⟩

/-- From a ladder already at breakeven, any run of updates reports no further
breakeven move and never changes the `RiskLevels`. -/
theorem runUpdates_blocked (cfg : RiskEngine.Config) (m : MomentumTrailingTP.Cfg) :
    ∀ (steps : List (RiskEngine.PositionUpdate × Option (List Candle)))
      (levels : RiskEngine.RiskLevels) (ms : Option MomentumState),
      RiskEngine.atBreakevenStop cfg levels →
      (∀ r ∈ (RiskEngine.runUpdates cfg m levels ms steps).1,
        r.moved_to_breakeven = false) ∧
      (RiskEngine.runUpdates cfg m levels ms steps).2.1 = levels := by
  intro steps
  induction steps with
  | nil => intro levels ms h; simp [RiskEngine.runUpdates]
  | cons st rest ih =>
      intro levels ms h
      obtain ⟨updi, ohi⟩ := st
      obtain ⟨hmv, hlev⟩ := update_position_blocked cfg m levels updi ohi ms h
      obtain ⟨ihall, ihlev⟩ := ih (RiskEngine.update_position cfg m levels updi
        ohi ms).2.1 (RiskEngine.update_position cfg m levels updi ohi ms).2.2
        (by rw [hlev]; exact h)
      constructor
      · intro r hr
        simp only [RiskEngine.runUpdates, List.mem_cons] at hr
        rcases hr with hr | hr
        · rw [hr]; exact hmv
        · exact ihall r hr
      · simp only [RiskEngine.runUpdates]
        rw [ihlev, hlev]

/-- If some call of a run reported the breakeven move, the run ends with the
ladder at the breakeven price. -/
theorem runUpdates_fired_atBE (cfg : RiskEngine.Config)
    (m : MomentumTrailingTP.Cfg) :
    ∀ (steps : List (RiskEngine.PositionUpdate × Option (List Candle)))
      (levels : RiskEngine.RiskLevels) (ms : Option MomentumState),
      (∃ r ∈ (RiskEngine.runUpdates cfg m levels ms steps).1,
        r.moved_to_breakeven = true) →
      RiskEngine.atBreakevenStop cfg
        (RiskEngine.runUpdates cfg m levels ms steps).2.1 := by
  intro steps
  induction steps with
  | nil => intro levels ms h; simp [RiskEngine.runUpdates] at h
  | cons st rest ih =>
      intro levels ms h
      obtain ⟨updi, ohi⟩ := st
      simp only [RiskEngine.runUpdates, List.mem_cons] at h ⊢
      rcases update_position_moved_cases cfg m levels updi ohi ms with
        ⟨hmv, hlev⟩ | ⟨hmv, -, hbe, hbu⟩
      · obtain ⟨r, hr, hrmv⟩ := h
        rcases hr with hr | hr
        · rw [hr, hmv] at hrmv
          exact absurd hrmv (by simp)
        · exact ih _ _ ⟨r, hr, hrmv⟩
      · have hrest := runUpdates_blocked cfg m rest
          (RiskEngine.update_position cfg m levels updi ohi ms).2.1
          (RiskEngine.update_position cfg m levels updi ohi ms).2.2 hbe
        rw [hrest.2]
        exact hbe

/-- At most one call in any run reports the breakeven move. -/
theorem runUpdates_count_le_one (cfg : RiskEngine.Config)
    (m : MomentumTrailingTP.Cfg) :
    ∀ (steps : List (RiskEngine.PositionUpdate × Option (List Candle)))
      (levels : RiskEngine.RiskLevels) (ms : Option MomentumState),
      ((RiskEngine.runUpdates cfg m levels ms steps).1.countP
        (·.moved_to_breakeven)) ≤ 1 := by
  intro steps
  induction steps with
  | nil => intro levels ms; simp [RiskEngine.runUpdates]
  | cons st rest ih =>
      intro levels ms
      obtain ⟨updi, ohi⟩ := st
      simp only [RiskEngine.runUpdates, List.countP_cons]
      rcases update_position_moved_cases cfg m levels updi ohi ms with
        ⟨hmv, -⟩ | ⟨hmv, -, hbe, -⟩
      · rw [hmv]
        simpa using ih _ _
      · rw [hmv]
        have hzero : ((RiskEngine.runUpdates cfg m
            (RiskEngine.update_position cfg m levels updi ohi ms).2.1
            (RiskEngine.update_position cfg m levels updi ohi ms).2.2
            rest).1.countP (·.moved_to_breakeven)) = 0 := by
          rw [List.countP_eq_zero]
          intro r hr
          have := (runUpdates_blocked cfg m rest _ _ hbe).1 r hr
          simp [this]
        simp [hzero]

/-- Every call of a run that reports the breakeven move reports an R-multiple
at or above the configured trigger. -/
theorem runUpdates_moved_trigger (cfg : RiskEngine.Config)
    (m : MomentumTrailingTP.Cfg) :
    ∀ (steps : List (RiskEngine.PositionUpdate × Option (List Candle)))
      (levels : RiskEngine.RiskLevels) (ms : Option MomentumState),
      ∀ r ∈ (RiskEngine.runUpdates cfg m levels ms steps).1,
        r.moved_to_breakeven = true →
        r.current_r_multiple ≥ cfg.breakeven_trigger_r := by
  intro steps
  induction steps with
  | nil => intro levels ms r hr; simp [RiskEngine.runUpdates] at hr
  | cons st rest ih =>
      intro levels ms r hr hmoved
      obtain ⟨updi, ohi⟩ := st
      simp only [RiskEngine.runUpdates, List.mem_cons] at hr
      rcases hr with hr | hr
      · rcases update_position_moved_cases cfg m levels updi ohi ms with
          ⟨hmv, -⟩ | ⟨-, htrig, -, -⟩
        · rw [hr, hmv] at hmoved
          exact absurd hmoved (by simp)
        · rw [hr]
          exact htrig
      · exact ih _ _ r hr hmoved

/-- Running a concatenated step list passes through the intermediate state. -/
theorem runUpdates_append (cfg : RiskEngine.Config) (m : MomentumTrailingTP.Cfg) :
    ∀ (s1 s2 : List (RiskEngine.PositionUpdate × Option (List Candle)))
      (levels : RiskEngine.RiskLevels) (ms : Option MomentumState),
      (RiskEngine.runUpdates cfg m levels ms (s1 ++ s2)).2 =
        (RiskEngine.runUpdates cfg m
          (RiskEngine.runUpdates cfg m levels ms s1).2.1
          (RiskEngine.runUpdates cfg m levels ms s1).2.2 s2).2 := by
  intro s1
  induction s1 with
  | nil => intro s2 levels ms; simp [RiskEngine.runUpdates]
  | cons st rest ih =>
      intro s2 levels ms
      obtain ⟨updi, ohi⟩ := st
      simp only [List.cons_append, RiskEngine.runUpdates]
      exact ih s2 _ _

/-- C5: across any sequence of `update_position` calls on the same threaded
`RiskLevels` object, the breakeven move is reported in at most one call, only
in a call whose computed R-multiple is at least `breakeven_trigger_r`, and
once it has fired the stored levels (in particular the repriced primary
stop) never change again. -/
theorem c5_breakeven_once (cfg : RiskEngine.Config) (m : MomentumTrailingTP.Cfg)
    (levels : RiskEngine.RiskLevels) (ms : Option MomentumState)
    (steps : List (RiskEngine.PositionUpdate × Option (List Candle))) :
    ((RiskEngine.runUpdates cfg m levels ms steps).1.countP
      (·.moved_to_breakeven)) ≤ 1 ∧
    (∀ r ∈ (RiskEngine.runUpdates cfg m levels ms steps).1,
      r.moved_to_breakeven = true →
      r.current_r_multiple ≥ cfg.breakeven_trigger_r) ∧
    (∀ s1 s2, steps = s1 ++ s2 →
      (∃ r ∈ (RiskEngine.runUpdates cfg m levels ms s1).1,
        r.moved_to_breakeven = true) →
      (RiskEngine.runUpdates cfg m levels ms steps).2.1 =
        (RiskEngine.runUpdates cfg m levels ms s1).2.1) := by
  refine ⟨runUpdates_count_le_one cfg m steps levels ms,
    runUpdates_moved_trigger cfg m steps levels ms, ?_⟩
  intro s1 s2 hsplit hfired
  subst hsplit
  have happ := runUpdates_append cfg m s1 s2 levels ms
  have hbe := runUpdates_fired_atBE cfg m s1 levels ms hfired
  have hbl := (runUpdates_blocked cfg m s2
    (RiskEngine.runUpdates cfg m levels ms s1).2.1
    (RiskEngine.runUpdates cfg m levels ms s1).2.2 hbe).2
  calc (RiskEngine.runUpdates cfg m levels ms (s1 ++ s2)).2.1
      = (RiskEngine.runUpdates cfg m
          (RiskEngine.runUpdates cfg m levels ms s1).2.1
          (RiskEngine.runUpdates cfg m levels ms s1).2.2 s2).2.1 := by rw [happ]
    _ = (RiskEngine.runUpdates cfg m levels ms s1).2.1 := hbl

/-- C5, witness: a two-call run on `divLevels` (R stays at 0.75, so no move
fires and the count is 0 ≤ 1). -/
theorem c5_breakeven_once_witness :
    ((RiskEngine.runUpdates RiskEngine.defaultConfig
      MomentumTrailingTP.engineMomCfg RiskEngine.divLevels none
      [(RiskEngine.divUpd, none), (RiskEngine.divUpd, none)]).1.countP
      (·.moved_to_breakeven)) ≤ 1 := by
  exact (c5_breakeven_once RiskEngine.defaultConfig MomentumTrailingTP.engineMomCfg
    RiskEngine.divLevels none [(RiskEngine.divUpd, none), (RiskEngine.divUpd, none)]).1

/-- C10: `update_position` mutates its `RiskLevels` argument only at the
first stop entry — and there only the price, reason and type fields — and
only in a call where the breakeven move fires; when the move does not fire
the `RiskLevels` object is left entirely unchanged, and the targets list,
entry price, direction, guarding-line parameters, breakeven price and the
tail of the stop ladder are never mutated in any call. -/
theorem c10_update_frame (cfg : RiskEngine.Config) (m : MomentumTrailingTP.Cfg)
    (levels : RiskEngine.RiskLevels) (upd : RiskEngine.PositionUpdate)
    (ohlcv : Option (List Candle)) (ms : Option MomentumState)
    (res : RiskEngine.RiskUpdate × RiskEngine.RiskLevels × Option MomentumState)
    (hres : res = RiskEngine.update_position cfg m levels upd ohlcv ms) :
    (res.1.moved_to_breakeven = false → res.2.1 = levels) ∧
    res.2.1.targets = levels.targets ∧
    res.2.1.entry_price = levels.entry_price ∧
    res.2.1.direction = levels.direction ∧
    res.2.1.guarding_line = levels.guarding_line ∧
    res.2.1.breakeven_price = levels.breakeven_price ∧
    res.2.1.stops.tail = levels.stops.tail ∧
    (res.1.moved_to_breakeven = true →
      ∃ s0 rest, levels.stops = s0 :: rest ∧
        res.2.1.stops =
          { s0 with
              price := RiskEngine.breakevenUsed cfg levels,
              reason := "Breakeven stop (profit protection)",
              type := "breakeven" } :: rest) := by
  subst hres
  obtain ⟨hmv, -, hlev⟩ := update_position_breakeven_spec cfg m levels upd ohlcv ms
  have hr1mv : (RiskEngine.step_current_r levels upd
      (RiskEngine.initRiskUpdate levels)).moved_to_breakeven = false := by
    rw [(RiskEngine.step_current_r_frame levels upd _).2.2.2.1,
      (RiskEngine.initRiskUpdate_fields levels).2.2]
  rcases RiskEngine.step_breakeven_cases cfg levels
      (RiskEngine.step_current_r levels upd (RiskEngine.initRiskUpdate levels))
    with ⟨hlev2, hmv2⟩ | ⟨hmv2, -, -, s0, rest, hstops, hlev2⟩
  · have hlevels : (RiskEngine.update_position cfg m levels upd ohlcv ms).2.1 =
        levels := by rw [hlev, hlev2]
    refine ⟨fun _ => hlevels, by rw [hlevels], by rw [hlevels], by rw [hlevels],
      by rw [hlevels], by rw [hlevels], by rw [hlevels], ?_⟩
    intro hcontra
    rw [hmv, hmv2, hr1mv] at hcontra
    exact absurd hcontra (by simp)
  · have hlevels : (RiskEngine.update_position cfg m levels upd ohlcv ms).2.1 =
        { levels with stops :=
            { s0 with
                price := RiskEngine.breakevenUsed cfg levels,
                reason := "Breakeven stop (profit protection)",
                type := "breakeven" } :: rest } := by rw [hlev, hlev2]
    refine ⟨?_, by rw [hlevels], by rw [hlevels], by rw [hlevels],
      by rw [hlevels], by rw [hlevels], ?_, ?_⟩
    · intro hcontra
      rw [hmv, hmv2] at hcontra
      exact absurd hcontra (by simp)
    · rw [hlevels, hstops]
      rfl
    · intro _
      exact ⟨s0, rest, hstops, by rw [hlevels]⟩

/-- C10, witness: the frame theorem at the concrete divergence scenario: the
targets list is untouched. -/
theorem c10_update_frame_witness :
    (RiskEngine.update_position RiskEngine.defaultConfig
      MomentumTrailingTP.engineMomCfg RiskEngine.divLevels RiskEngine.divUpd
      none none).2.1.targets = RiskEngine.divLevels.targets := by
  exact (c10_update_frame RiskEngine.defaultConfig MomentumTrailingTP.engineMomCfg
    RiskEngine.divLevels RiskEngine.divUpd none none _ rfl).2.1

end Bastion
